import Mathlib

/-!
Verification of the drama-llama learning-platform backend.

Shallow embedding of the relevant operations:
* quiz attempt lifecycle (`ai/db_config/crud.py`: `create_quiz_attempt`,
  `submit_quiz_attempt`),
* session chat-message reads and writes (`ai/db_config/crud.py`),
* the AI orchestration service's roadmap creation / editing / tool gating
  (`ai/utils/ai/service.py`),
* graduation-project answer submission (`ai/routes/graduation_project.py`),
* semantic-cache duplicate detection (`caching/routes/cache.py`),
* cosine similarity helpers (`caching/utils/similarity.py`),
* prompt variable substitution (`ai/models/Prompt.py`).

Python floats are modelled as rationals (`ℚ`) except for the similarity
helpers, which are modelled over the reals since they involve square roots.
Database tables are modelled as lists of rows; SQLAlchemy queries become
list operations mirroring the filters/ordering used at each call site.
-/

namespace DramaLlama

/-! ### Quiz domain (`ai/db_config/crud.py`) -/

/-- A `QuizQuestion` row: the fields read by `submit_quiz_attempt`. -/
structure QuizQuestion where
  id : Nat
  correct_answer : String
  points : Int
deriving Repr, DecidableEq

/-- A `Quiz` row: the fields read by the attempt lifecycle. -/
structure Quiz where
  passing_score_percentage : ℚ
  max_attempts : Nat
  total_questions : Nat
deriving Repr, DecidableEq

/-- A `QuizAttempt` row (the fields touched by submission). -/
structure QuizAttempt where
  status : String
  correct_answers : Nat
  score_percentage : ℚ
  passed : Bool
deriving Repr, DecidableEq

/-- One element of the `answers` list passed to `submit_quiz_attempt`. -/
structure AnswerInput where
  question_id : Nat
  selected_answer : String
deriving Repr, DecidableEq

/-- A `QuizAnswer` row as created by `submit_quiz_attempt`. -/
structure QuizAnswer where
  question_id : Nat
  selected_answer : String
  is_correct : Bool
  points_earned : Int
deriving Repr, DecidableEq

/-- Model of `question_map = {q.id: q for q in questions}` followed by
`question_map.get(question_id)`: a Python dict comprehension keeps the
last entry for a duplicated key, so lookup searches the reversed list. -/
def question_map (questions : List QuizQuestion) (qid : Nat) : Option QuizQuestion :=
  questions.reverse.find? (fun q => q.id == qid)

/-- The answer-processing loop of `submit_quiz_attempt`: returns the created
`QuizAnswer` rows together with `(correct_answers, total_points,
earned_points)`.  Answers whose `question_id` is not in the map are
skipped (`continue`). -/
def processAnswers (questions : List QuizQuestion) :
    List AnswerInput → List QuizAnswer × Nat × Int × Int
  | [] => ([], 0, 0, 0)
  | a :: rest =>
    match question_map questions a.question_id with
    | none => processAnswers questions rest
    | some q =>
      let is_correct := a.selected_answer == q.correct_answer
      let points_earned := if is_correct then q.points else 0
      let (rows, c, t, e) := processAnswers questions rest
      (⟨a.question_id, a.selected_answer, is_correct, points_earned⟩ :: rows,
        (if is_correct then 1 else 0) + c, q.points + t, points_earned + e)

/-- Model of `submit_quiz_attempt` (crud.py, lines 1404-1475), given the already
looked-up attempt row, its quiz row and the quiz's questions.  Returns the
updated attempt together with the persisted `QuizAnswer` rows.  Time
bookkeeping (`completed_at`, `time_spent_minutes`) is outside the model. -/
def submit_quiz_attempt (attempt : QuizAttempt) (quiz : Quiz)
    (questions : List QuizQuestion) (answers : List AnswerInput) :
    Except String (QuizAttempt × List QuizAnswer) :=
  if attempt.status ≠ "in_progress" then
    .error "Quiz attempt is not in progress"
  else
    let (rows, correct, total, earned) := processAnswers questions answers
    let score : ℚ := if total > 0 then (earned : ℚ) / (total : ℚ) * 100 else 0
    let passed : Bool := decide (score ≥ quiz.passing_score_percentage)
    .ok ({ attempt with
            status := "completed"
            correct_answers := correct
            score_percentage := score
            passed := passed }, rows)

/-- Specification-side view: the submitted answers paired with the stored
question each one scores against (answers with no matching question drop
out). -/
def answeredPairs (questions : List QuizQuestion) (answers : List AnswerInput) :
    List (AnswerInput × QuizQuestion) :=
  answers.filterMap (fun a => (question_map questions a.question_id).map (fun q => (a, q)))

/-- Specification-side `total_points`: sum of the points of every answered
question. -/
def totalPoints (questions : List QuizQuestion) (answers : List AnswerInput) : Int :=
  ((answeredPairs questions answers).map (fun p => p.2.points)).sum

/-- Specification-side `earned_points`: sum of the points of the correctly
answered questions. -/
def earnedPoints (questions : List QuizQuestion) (answers : List AnswerInput) : Int :=
  ((answeredPairs questions answers).map
    (fun p => if p.1.selected_answer == p.2.correct_answer then p.2.points else 0)).sum

/-- Model of `create_quiz_attempt` (crud.py, lines 1330-1364), abstracted over the
attempt numbers already stored for this (quiz, user) pair.  The
`order_by(desc(attempt_number)).first()` query is the maximum of those
numbers.  Returns the `attempt_number` assigned to the new row. -/
def create_quiz_attempt (existingNumbers : List Nat) (quiz_id : Nat)
    (quiz : Option Quiz) : Except String Nat :=
  let last := existingNumbers.max?
  let attempt_number := match last with
    | some l => l + 1
    | none => 1
  match quiz with
  | none => .error s!"Quiz {quiz_id} not found"
  | some q =>
    match last with
    | some l =>
      if l ≥ q.max_attempts then
        .error s!"Maximum attempts ({q.max_attempts}) exceeded for this quiz"
      else
        .ok attempt_number
    | none => .ok attempt_number

/-- The attempt numbers stored after `k` consecutive `create_quiz_attempt`
calls for the same (quiz, user) pair, starting from none; a failing call
stores nothing. -/
def attemptsAfter (quiz_id : Nat) (q : Quiz) : Nat → List Nat
  | 0 => []
  | k + 1 =>
    let prev := attemptsAfter quiz_id q k
    match create_quiz_attempt prev quiz_id (some q) with
    | .ok n => prev ++ [n]
    | .error _ => prev

/-- Specification-side list `[1, 2, …, k]` of expected attempt numbers. -/
def upTo : Nat → List Nat
  | 0 => []
  | k + 1 => upTo k ++ [k + 1]

/-! ### Session chat messages (`ai/db_config/crud.py`) -/

/-- One element of a session's `messages` JSON array (timestamp/metadata
are not needed by the claims). -/
structure ChatMessage where
  role : String
  content : String
deriving Repr, DecidableEq

/-- A `Session` row; `messages` is nullable in the column, hence `Option`. -/
structure SessionRec where
  id : Nat
  messages : Option (List ChatMessage)
deriving Repr, DecidableEq

/-- Model of `get_session`: `query(Session).filter(Session.id == session_id).first()`. -/
def get_session (db : List SessionRec) (session_id : Nat) : Option SessionRec :=
  db.find? (fun s => s.id == session_id)

/-- Model of `get_session_messages` (crud.py, lines 174-205): missing session gives
`[]`; `messages or []`; optional role filter; `if limit and limit > 0`
keeps the `limit` most recent (Python `messages[-limit:]`). -/
def get_session_messages (db : List SessionRec) (session_id : Nat)
    (limit : Option Nat) (role_filter : Option String) : List ChatMessage :=
  match get_session db session_id with
  | none => []
  | some s =>
    let messages := s.messages.getD []
    let messages := match role_filter with
      | some r => messages.filter (fun m => m.role == r)
      | none => messages
    match limit with
    | some l => if l > 0 then messages.drop (messages.length - l) else messages
    | none => messages

/-- Model of `get_last_n_messages`: delegates with `limit = n`. -/
def get_last_n_messages (db : List SessionRec) (session_id : Nat) (n : Nat) :
    List ChatMessage :=
  get_session_messages db session_id (some n) none

/-- Model of `count_session_messages` (crud.py, lines 253-269). -/
def count_session_messages (db : List SessionRec) (session_id : Nat)
    (role_filter : Option String) : Nat :=
  (get_session_messages db session_id none role_filter).length

/-- Model of `add_message_to_session` (crud.py, lines 127-148): a missing session
raises `ValueError`; otherwise the message is appended (initializing a
`None` array) and the table updated. -/
def add_message_to_session (db : List SessionRec) (session_id : Nat)
    (role content : String) : Except String (List SessionRec) :=
  match get_session db session_id with
  | none => .error s!"Session {session_id} not found"
  | some _ =>
    .ok (db.map (fun s =>
      if s.id == session_id then
        { s with messages := some (s.messages.getD [] ++ [⟨role, content⟩]) }
      else s))

/-! ### AI orchestration service (`ai/utils/ai/service.py`) -/

/-- Skill levels (enum `SkillLevelEnum` from the data model). -/
inductive SkillLevel where
  | beginner
  | intermediate
  | advanced
  | expert
deriving Repr, DecidableEq

/-- A `Roadmap` row (the fields touched by roadmap creation). -/
structure RoadmapRow where
  id : Nat
  session_id : Nat
  user_request : String
  total_estimated_weeks : Nat
  graduation_project : Option String
  graduation_project_title : Option String
deriving Repr, DecidableEq

/-- A `RoadmapGoal` row (the fields touched by roadmap creation). -/
structure GoalRow where
  id : Nat
  roadmap_id : Nat
  goal_number : Nat
  title : String
  description : String
  priority : Nat
  skill_level : SkillLevel
  estimated_hours : Nat
  prerequisites : List String
deriving Repr, DecidableEq

/-- A `LearningMaterial` row, keyed here by the roadmap its goal belongs
to (the only thing `plan_action`'s material query inspects). -/
structure MaterialRow where
  id : Nat
  roadmap_id : Nat
deriving Repr, DecidableEq

/-- The relational state the orchestration service touches. -/
structure DBState where
  roadmaps : List RoadmapRow
  goals : List GoalRow
  materials : List MaterialRow
  nextId : Nat
deriving Repr, DecidableEq

/-- Model of `get_roadmap_by_session`: `.filter(session_id == sid).first()`. -/
def get_roadmap_by_session (st : DBState) (session_id : Nat) : Option RoadmapRow :=
  st.roadmaps.find? (fun r => r.session_id == session_id)

/-- Model of `get_goals_by_roadmap` (default arguments): filter by roadmap, order by
`goal_number`, offset 0, limit 100.  The SQL sort is modelled by insertion
sort on `goal_number`. -/
def get_goals_by_roadmap (st : DBState) (roadmap_id : Nat) : List GoalRow :=
  (List.insertionSort (fun a b => a.goal_number ≤ b.goal_number)
    (st.goals.filter (fun g => g.roadmap_id == roadmap_id))).take 100

/-- Model of `get_materials_by_roadmap` (default arguments): join on the goal's
roadmap, no type filter, ordered by relevance, offset 0, limit 100 — only
emptiness is inspected by the callers modelled here, so ordering by
relevance is irrelevant and omitted. -/
def get_materials_by_roadmap (st : DBState) (roadmap_id : Nat) : List MaterialRow :=
  (st.materials.filter (fun m => m.roadmap_id == roadmap_id)).take 100

/-- A goal as produced/consumed by the LLM (`RoadmapGoalSchema`); its
pydantic schema constrains `priority` to `[1,5]` and has no skill-level
field at all. -/
structure RoadmapGoalSchema where
  goal_number : Nat
  title : String
  description : String
  priority : Nat
  estimated_hours : Nat
  prerequisites : List String
deriving Repr, DecidableEq

/-- Response schema `RoadmapSkeletonResponse`: the validated output of the roadmap tools. -/
structure RoadmapSkeletonResponse where
  goals : List RoadmapGoalSchema
  graduation_project : String
  graduation_project_title : String
deriving Repr, DecidableEq

/-- The tool arguments `_save_roadmap_to_db` reads (`userRequest`, with
`''` as default). -/
structure ToolArguments where
  userRequest : String
deriving Repr, DecidableEq

/-- The skill-level derivation inside `_save_roadmap_to_db`:
`priority <= 2` → advanced, `== 3` → intermediate, else beginner. -/
def skillFromPriority (priority : Nat) : SkillLevel :=
  if priority ≤ 2 then .advanced
  else if priority == 3 then .intermediate
  else .beginner

/-- Model of `AIService._save_roadmap_to_db` (service.py, lines 506-548): computes
`total_weeks = max(1, total_hours // 10)`, creates the `Roadmap` row and
one `RoadmapGoal` row per goal in the response, deriving `skill_level`
from the goal's priority. -/
def save_roadmap_to_db (st : DBState) (session_id : Nat)
    (resp : RoadmapSkeletonResponse) (args : ToolArguments) : DBState :=
  let total_hours := (resp.goals.map (fun g => g.estimated_hours)).sum
  let total_weeks := max 1 (total_hours / 10)
  let roadmap : RoadmapRow :=
    { id := st.nextId
      session_id := session_id
      user_request := args.userRequest
      total_estimated_weeks := total_weeks
      graduation_project := some resp.graduation_project
      graduation_project_title := some resp.graduation_project_title }
  let newGoals := resp.goals.enum.map (fun p =>
    ({ id := st.nextId + 1 + p.1
       roadmap_id := roadmap.id
       goal_number := p.2.goal_number
       title := p.2.title
       description := p.2.description
       priority := p.2.priority
       skill_level := skillFromPriority p.2.priority
       estimated_hours := p.2.estimated_hours
       prerequisites := p.2.prerequisites } : GoalRow))
  { st with
      roadmaps := st.roadmaps ++ [roadmap]
      goals := st.goals ++ newGoals
      nextId := st.nextId + 1 + resp.goals.length }

/-- Projection of a stored goal row back to the response schema. -/
def goalToSchema (g : GoalRow) : RoadmapGoalSchema :=
  { goal_number := g.goal_number
    title := g.title
    description := g.description
    priority := g.priority
    estimated_hours := g.estimated_hours
    prerequisites := g.prerequisites }

/-- The reconstruction of an existing roadmap performed by
`execute_roadmap_creation` when a roadmap already exists: goals read via
`get_goals_by_roadmap`, then `sorted(goals, key=lambda g: g.goal_number)`,
projected back to the response schema; `or ""` on the nullable text
fields. -/
def roadmapToResponse (st : DBState) (r : RoadmapRow) : RoadmapSkeletonResponse :=
  { goals :=
      (List.insertionSort (fun a b => a.goal_number ≤ b.goal_number)
        (get_goals_by_roadmap st r.id)).map goalToSchema
    graduation_project := (r.graduation_project).getD ""
    graduation_project_title := (r.graduation_project_title).getD "" }

/-- Model of `AIService.execute_roadmap_creation` (service.py, lines 289-341):
if a roadmap already exists for the session it is returned reconstructed
from the stored goals and nothing is written; otherwise the LLM's
validated response (`llmOutput`, an external input to this model) is saved
via `save_roadmap_to_db` and returned. -/
def execute_roadmap_creation (st : DBState) (session_id : Nat)
    (llmOutput : RoadmapSkeletonResponse) (args : ToolArguments) :
    RoadmapSkeletonResponse × DBState :=
  match get_roadmap_by_session st session_id with
  | some existing => (roadmapToResponse st existing, st)
  | none => (llmOutput, save_roadmap_to_db st session_id llmOutput args)

/-- Model of `AIService.edit_roadmap_skeleton` and `execute_roadmap_skeleton_editing`
(service.py, lines 343-432): fails when no roadmap exists, otherwise
persists the LLM's validated response through the same
`save_roadmap_to_db` path. -/
def execute_roadmap_skeleton_editing (st : DBState) (session_id : Nat)
    (llmOutput : RoadmapSkeletonResponse) (args : ToolArguments) :
    Except String (RoadmapSkeletonResponse × DBState) :=
  match get_roadmap_by_session st session_id with
  | none => .error s!"No roadmap found for session {session_id}"
  | some _ => .ok (llmOutput, save_roadmap_to_db st session_id llmOutput args)

/-- The tool-offering computation inside `AIService.plan_action`
(service.py, lines 93-108): materials exist → no tools; roadmap without
materials → only `createLearningMaterials`; no roadmap → only
`createRoadmapSkeleton`. -/
def plan_action_tools (st : DBState) (session_id : Nat) : List String :=
  let roadmap := get_roadmap_by_session st session_id
  let learning_materials := match roadmap with
    | some r => get_materials_by_roadmap st r.id
    | none => []
  if learning_materials.length > 0 then []
  else if roadmap.isSome then ["createLearningMaterials"]
  else ["createRoadmapSkeleton"]

/-- The tool-offering computation inside `AIService.plan_action_stream`
(service.py, lines 226-234): it checks only roadmap existence and never
queries the materials. -/
def plan_action_stream_tools (st : DBState) (session_id : Nat) : List String :=
  if (get_roadmap_by_session st session_id).isSome then ["createLearningMaterials"]
  else ["createRoadmapSkeleton"]

/-! ### Graduation-project submission (`ai/routes/graduation_project.py`) -/

/-- A `GraduationProjectQuestion` row: the fields read at submission. -/
structure GradQuestion where
  id : Nat
  question_id : String
  answer_min_chars : Nat
  answer_max_chars : Nat
deriving Repr, DecidableEq

/-- One element of `SubmitAnswersRequest.answers`. -/
structure GradAnswer where
  question_id : String
  text : String
deriving Repr, DecidableEq

/-- A `GraduationProjectSubmission` row as created by the route (citations
are always `None` there). -/
structure SubmissionRow where
  session_id : Nat
  question_id : Nat
  answer_text : String
deriving Repr, DecidableEq

/-- An ASCII single quote, used by the route's error messages. -/
def sq : String := String.singleton (Char.ofNat 39)

/-- Model of `question_map = {q.question_id: q for q in questions}` with last-wins
dict semantics, then `.get`. -/
def grad_question_map (questions : List GradQuestion) (qid : String) : Option GradQuestion :=
  questions.reverse.find? (fun q => q.question_id == qid)

/-- The per-answer validation loop of `submit_graduation_answers`: an
unknown `question_id` contributes an "Invalid question_id" error and skips
the length checks (`continue`); otherwise a too-short and/or too-long
error is appended. -/
def validationErrors (questions : List GradQuestion) :
    List GradAnswer → List String
  | [] => []
  | a :: rest =>
    (match grad_question_map questions a.question_id with
      | none => [s!"Invalid question_id: {a.question_id}"]
      | some q =>
        (if a.text.length < q.answer_min_chars then
          [s!"Answer for {sq}{a.question_id}{sq} is too short (minimum {q.answer_min_chars} chars)"]
        else []) ++
        (if a.text.length > q.answer_max_chars then
          [s!"Answer for {sq}{a.question_id}{sq} is too long (maximum {q.answer_max_chars} chars)"]
        else [])) ++ validationErrors questions rest

/-- Specification-side predicate: the answer references a stored question
and its text length lies within that question's bounds. -/
def validAnswer (questions : List GradQuestion) (a : GradAnswer) : Prop :=
  ∃ q, grad_question_map questions a.question_id = some q ∧
    q.answer_min_chars ≤ a.text.length ∧ a.text.length ≤ q.answer_max_chars

instance (questions : List GradQuestion) (a : GradAnswer) :
    Decidable (validAnswer questions a) := by
  unfold validAnswer
  exact match grad_question_map questions a.question_id with
  | none => .isFalse (by simp)
  | some q => decidable_of_iff
      (q.answer_min_chars ≤ a.text.length ∧ a.text.length ≤ q.answer_max_chars) (by simp)

/-- Model of `submit_graduation_answers` (graduation_project.py, lines 571-647), up
to the point where submissions are created: session lookup, the
exactly-5-answers check, the exactly-5-stored-questions check, the
validation loop (rejecting the whole batch when any error was collected),
and otherwise one `GraduationProjectSubmission` row per answer.  The
post-persistence AI evaluation is outside the claim. -/
def submit_graduation_answers (sessions : List Nat) (session_id : Nat)
    (questions : List GradQuestion) (answers : List GradAnswer) :
    Except String (List SubmissionRow) :=
  if session_id ∉ sessions then
    .error s!"Session {session_id} not found"
  else if answers.length ≠ 5 then
    .error s!"Expected exactly 5 answers, got {answers.length}"
  else if questions.length ≠ 5 then
    .error s!"Expected 5 questions in database, found {questions.length}"
  else
    let errors := validationErrors questions answers
    if errors ≠ [] then
      .error (String.intercalate "; " errors)
    else
      .ok (answers.map (fun a =>
        { session_id := session_id
          question_id := ((grad_question_map questions a.question_id).map
            (fun q => q.id)).getD 0
          answer_text := a.text }))

/-! ### Semantic-cache store route (`caching/routes/cache.py`) -/

/-- An inbound `MaterialCreate`. -/
structure MaterialCreate where
  title : String
  content : String
deriving Repr, DecidableEq

/-- A stored material as returned inside a search result. -/
structure CachedMaterial where
  id : String
  title : String
  content : String
deriving Repr, DecidableEq

/-- One neighbor returned by `qdrant_service.search_similar`.  Similarity
scores are Python floats, modelled as rationals. -/
structure SearchHit where
  material : CachedMaterial
  similarity_score : ℚ
deriving Repr, DecidableEq

/-- The outcome of the store route's duplicate scan. -/
inductive StoreOutcome where
  | conflict (match_type : String) (existing_id : String)
  | stored
deriving Repr, DecidableEq

/-- Model of Python `str.strip()`: drop whitespace from both ends. -/
def pyStrip (l : List Char) : List Char :=
  ((l.dropWhile Char.isWhitespace).reverse.dropWhile Char.isWhitespace).reverse

/-- Model of Python `s.strip().lower()` on a string's characters. -/
def stripLower (s : String) : List Char :=
  (pyStrip s.data).map Char.toLower

/-- Model of `existing.title.strip().lower() == material.title.strip().lower()` and
likewise for content. -/
def isExactMatch (existing : CachedMaterial) (material : MaterialCreate) : Bool :=
  stripLower existing.title == stripLower material.title &&
    stripLower existing.content == stripLower material.content

/-- The search parameters of the duplicate pre-check in `store_material`:
top 5 neighbors, score threshold 0.95. -/
def duplicateSearchLimit : Nat := 5

/-- The 0.95 duplicate pre-check threshold. -/
def duplicateSearchThreshold : ℚ := 95 / 100

/-- The 0.98 near-duplicate threshold. -/
def nearDuplicateThreshold : ℚ := 98 / 100

/-- The duplicate scan loop of `store_material` (cache.py, lines 62-155):
for each neighbor in order, an exact title+content match raises Conflict
with match_type "exact"; otherwise similarity ≥ 0.98 raises Conflict with
match_type "near-duplicate"; if the loop finishes, the material is
stored. -/
def duplicateScan (material : MaterialCreate) : List SearchHit → StoreOutcome
  | [] => .stored
  | hit :: rest =>
    if isExactMatch hit.material material then
      .conflict "exact" hit.material.id
    else if hit.similarity_score ≥ nearDuplicateThreshold then
      .conflict "near-duplicate" hit.material.id
    else
      duplicateScan material rest

/-- Model of `store_material`, abstracted over the vector engine: `search` stands
for `qdrant_service.search_similar` on the embedding of
`title + "\n\n" + content`, applied at the 0.95 threshold with limit 5. -/
def store_material (material : MaterialCreate)
    (search : ℚ → Nat → List SearchHit) : StoreOutcome :=
  duplicateScan material (search duplicateSearchThreshold duplicateSearchLimit)

/-! ### Similarity helpers (`caching/utils/similarity.py`)

NumPy float arithmetic is modelled over the reals. -/

/-- Model of `np.dot` of two equal-length vectors. -/
def dotProduct (v1 v2 : List ℝ) : ℝ :=
  (List.zipWith (fun a b => a * b) v1 v2).sum

/-- Sum of squares of a vector's entries. -/
def sumSquares (v : List ℝ) : ℝ :=
  (v.map (fun x => x ^ 2)).sum

/-- Model of `np.linalg.norm`: the L2 norm. -/
noncomputable def vecNorm (v : List ℝ) : ℝ :=
  Real.sqrt (sumSquares v)

/-- Model of `cosine_similarity` (similarity.py, lines 6-27): `0.0` when either
norm is zero, else `dot / (norm1 * norm2)`. -/
noncomputable def cosine_similarity (vec1 vec2 : List ℝ) : ℝ :=
  if vecNorm vec1 = 0 ∨ vecNorm vec2 = 0 then 0
  else dotProduct vec1 vec2 / (vecNorm vec1 * vecNorm vec2)

/-- Pointwise negation of a vector (`-v`). -/
def negVec (v : List ℝ) : List ℝ :=
  v.map (fun x => -x)

/-! ### Prompt variable substitution (`ai/models/Prompt.py`)

String contents are modelled as `List Char`.  Python `str.replace`
replaces non-overlapping occurrences left to right; it is defined here
with an explicit fuel argument (the scanned list's length) to make the
recursion structural. -/

/-- Test `startsWith p l`: `p` is an initial segment of `l`. -/
def startsWith : List Char → List Char → Bool
  | [], _ => true
  | _ :: _, [] => false
  | a :: as, b :: bs => a == b && startsWith as bs

/-- Test `containsPat p l`: `p` occurs contiguously somewhere in `l`. -/
def containsPat (pat : List Char) : List Char → Bool
  | [] => pat.isEmpty
  | c :: cs => startsWith pat (c :: cs) || containsPat pat cs

/-- Fuel-indexed body of Python `str.replace`: scan left to right; on a
match of the (nonempty) pattern emit the replacement and skip the match,
otherwise copy one character. -/
def pyReplaceAux (pat val : List Char) : Nat → List Char → List Char
  | 0, l => l
  | _ + 1, [] => []
  | fuel + 1, c :: cs =>
    if startsWith pat (c :: cs) ∧ pat ≠ [] then
      val ++ pyReplaceAux pat val fuel ((c :: cs).drop pat.length)
    else
      c :: pyReplaceAux pat val fuel cs

/-- Python `content.replace(pat, val)` for a nonempty pattern. -/
def pyReplace (pat val : List Char) (l : List Char) : List Char :=
  pyReplaceAux pat val l.length l

/-- The `{\x7b`key`\x7d}` pattern (written with character literals). -/
def pat (key : String) : List Char :=
  '{' :: '{' :: (key.data ++ ['}', '}'])

/-- The `{\x7b key \x7d}` pattern with surrounding spaces. -/
def spacedPat (key : String) : List Char :=
  '{' :: '{' :: ' ' :: (key.data ++ [' ', '}', '}'])

/-- The inner substitution of `Prompt._fill_variables` (Prompt.py, lines
19-42) applied to one message's content: for each supplied variable (in
map order, values already stringified), replace `{\x7b`key`\x7d}` and then
`{\x7b key \x7d}` by the value. -/
def fill_variables (vars : List (String × String)) (content : List Char) : List Char :=
  vars.foldl (fun c kv =>
    pyReplace (spacedPat kv.1) kv.2.data (pyReplace (pat kv.1) kv.2.data c)) content

/-! ## Theorems -/

/-! ### C10: reads of a missing session vs writes -/

/-- C10: for a `session_id` with no stored session, `get_session_messages`
and `get_last_n_messages` return the empty list and
`count_session_messages` returns 0, while `add_message_to_session` fails
with the NotFound error. -/
theorem missing_session_read_write_asymmetry (db : List SessionRec) (session_id : Nat)
    (h : get_session db session_id = none) :
    (∀ limit role_filter, get_session_messages db session_id limit role_filter = []) ∧
    (∀ n, get_last_n_messages db session_id n = []) ∧
    (∀ role_filter, count_session_messages db session_id role_filter = 0) ∧
    (∀ role content, add_message_to_session db session_id role content =
      .error s!"Session {session_id} not found") := by
  refine ⟨fun limit role_filter => ?_, fun n => ?_, fun role_filter => ?_,
    fun role content => ?_⟩ <;>
    simp [get_session_messages, get_last_n_messages, count_session_messages,
      add_message_to_session, h]

/-- Witness for C10 at a concrete database containing only session 1. -/
theorem missing_session_read_write_asymmetry_witness :
    get_session [⟨1, some []⟩] 2 = none ∧
    get_session_messages [⟨1, some []⟩] 2 none none = [] ∧
    get_last_n_messages [⟨1, some []⟩] 2 10 = [] ∧
    count_session_messages [⟨1, some []⟩] 2 none = 0 ∧
    add_message_to_session [⟨1, some []⟩] 2 "user" "hi" = .error "Session 2 not found" := by
  have h : get_session [⟨1, some []⟩] 2 = none := by decide
  have t := missing_session_read_write_asymmetry [⟨1, some []⟩] 2 h
  exact ⟨h, t.1 none none, t.2.1 10, t.2.2.1 none, t.2.2.2 "user" "hi"⟩

/-! ### C2: attempt numbering and the max-attempts limit -/

/-- Maximum of a list extended by one element on the right. -/
theorem max?_append_singleton (l : List Nat) (x : Nat) :
    (l ++ [x]).max? = some (match l.max? with | none => x | some m => max m x) := by
  cases l with
  | nil => rfl
  | cons a as => simp [List.max?, List.foldl_append]

/-- Maximum of the expected attempt-number list `[1, …, k]`. -/
theorem upTo_max? (k : Nat) : (upTo k).max? = if k = 0 then none else some k := by
  induction k with
  | zero => rfl
  | succ n ih =>
    rw [upTo, max?_append_singleton, ih]
    cases n with
    | zero => simp
    | succ m => simp [Nat.max_eq_right (Nat.le_succ (m + 1))]

/-- After `k ≤ max_attempts` creation calls the stored attempt numbers are
exactly `[1, …, k]`. -/
theorem attemptsAfter_eq_upTo (quiz_id : Nat) (q : Quiz) :
    ∀ k, k ≤ q.max_attempts → attemptsAfter quiz_id q k = upTo k := by
  intro k
  induction k with
  | zero => intro _; rfl
  | succ n ih =>
    intro hk
    have hn : n ≤ q.max_attempts := Nat.le_of_succ_le hk
    rw [attemptsAfter, ih hn]
    rw [create_quiz_attempt]
    simp only [upTo_max?]
    cases hn0 : decide (n = 0) with
    | true =>
      have : n = 0 := of_decide_eq_true hn0
      subst this
      rfl
    | false =>
      have hne : n ≠ 0 := of_decide_eq_false hn0
      simp only [if_neg hne]
      have : ¬ n ≥ q.max_attempts := by omega
      simp [this, upTo]

/-- C2: the k-th `create_quiz_attempt` call for a (quiz, user) pair
assigns `attempt_number = k` (previous maximum plus one, defaulting to 1),
and creation fails with the LimitExceeded error as soon as the highest
stored attempt number reaches `max_attempts`; in particular the
`(max_attempts + 1)`-th call fails. -/
theorem create_quiz_attempt_numbering (quiz_id : Nat) (q : Quiz) (k : Nat)
    (hmax : 1 ≤ q.max_attempts) :
    (∀ existing : List Nat, existing.max? = none →
      create_quiz_attempt existing quiz_id (some q) = .ok 1) ∧
    (∀ (existing : List Nat) (m : Nat), existing.max? = some m → m < q.max_attempts →
      create_quiz_attempt existing quiz_id (some q) = .ok (m + 1)) ∧
    (∀ (existing : List Nat), existing.max? = some q.max_attempts →
      create_quiz_attempt existing quiz_id (some q) =
        .error s!"Maximum attempts ({q.max_attempts}) exceeded for this quiz") ∧
    (1 ≤ k → k ≤ q.max_attempts →
      create_quiz_attempt (attemptsAfter quiz_id q (k - 1)) quiz_id (some q) = .ok k) ∧
    create_quiz_attempt (attemptsAfter quiz_id q q.max_attempts) quiz_id (some q) =
      .error s!"Maximum attempts ({q.max_attempts}) exceeded for this quiz" := by
  refine ⟨?_, ?_, ?_, ?_, ?_⟩
  · intro existing h
    rw [create_quiz_attempt]
    simp [h]
  · intro existing m h hm
    rw [create_quiz_attempt]
    have : ¬ m ≥ q.max_attempts := by omega
    simp [h, this]
  · intro existing h
    rw [create_quiz_attempt]
    simp [h]
  · intro h1 hk
    have hprev : k - 1 ≤ q.max_attempts := by omega
    rw [attemptsAfter_eq_upTo quiz_id q (k - 1) hprev, create_quiz_attempt]
    simp only [upTo_max?]
    have hne : ¬ (k - 1 = 0) ∨ k = 1 := by omega
    cases hne with
    | inr h1' =>
      subst h1'
      simp
    | inl hne =>
      simp only [if_neg hne]
      have : ¬ k - 1 ≥ q.max_attempts := by omega
      simp only [if_neg this]
      have : k - 1 + 1 = k := by omega
      rw [this]
  · rw [attemptsAfter_eq_upTo quiz_id q q.max_attempts (Nat.le_refl _), create_quiz_attempt]
    have hne : ¬ (q.max_attempts = 0) := by omega
    simp only [upTo_max?, if_neg hne]
    simp

/-- Witness for C2 at `max_attempts = 3`: calls 1, 2, 3 succeed with
numbers 1, 2, 3 and the 4th call fails. -/
theorem create_quiz_attempt_numbering_witness :
    create_quiz_attempt (attemptsAfter 9 ⟨70, 3, 4⟩ 0) 9 (some ⟨70, 3, 4⟩) = .ok 1 ∧
    create_quiz_attempt (attemptsAfter 9 ⟨70, 3, 4⟩ 1) 9 (some ⟨70, 3, 4⟩) = .ok 2 ∧
    create_quiz_attempt (attemptsAfter 9 ⟨70, 3, 4⟩ 2) 9 (some ⟨70, 3, 4⟩) = .ok 3 ∧
    create_quiz_attempt (attemptsAfter 9 ⟨70, 3, 4⟩ 3) 9 (some ⟨70, 3, 4⟩) =
      .error "Maximum attempts (3) exceeded for this quiz" := by
  have t1 := (create_quiz_attempt_numbering 9 ⟨70, 3, 4⟩ 1 (by decide)).2.2.2.1
    (by decide) (by decide)
  have t2 := (create_quiz_attempt_numbering 9 ⟨70, 3, 4⟩ 2 (by decide)).2.2.2.1
    (by decide) (by decide)
  have t3 := (create_quiz_attempt_numbering 9 ⟨70, 3, 4⟩ 3 (by decide)).2.2.2.1
    (by decide) (by decide)
  have t4 := (create_quiz_attempt_numbering 9 ⟨70, 3, 4⟩ 3 (by decide)).2.2.2.2
  exact ⟨t1, t2, t3, t4⟩

/-! ### C1: quiz attempt submission -/

/-- The submitted-answer processing loop, characterized against the
specification-side sums over `answeredPairs`. -/
theorem processAnswers_eq (questions : List QuizQuestion) (answers : List AnswerInput) :
    processAnswers questions answers =
      ((answeredPairs questions answers).map (fun p =>
        (⟨p.1.question_id, p.1.selected_answer, p.1.selected_answer == p.2.correct_answer,
          if p.1.selected_answer == p.2.correct_answer then p.2.points else 0⟩ : QuizAnswer)),
       (answeredPairs questions answers).countP
         (fun p => p.1.selected_answer == p.2.correct_answer),
       totalPoints questions answers,
       earnedPoints questions answers) := by
  induction answers with
  | nil => simp [processAnswers, answeredPairs, totalPoints, earnedPoints]
  | cons a rest ih =>
    cases hq : question_map questions a.question_id with
    | none =>
      simp [processAnswers, hq, answeredPairs, List.filterMap_cons, totalPoints,
        earnedPoints] at ih ⊢
      exact ih
    | some q =>
      have hap : answeredPairs questions (a :: rest) = (a, q) :: answeredPairs questions rest := by
        simp [answeredPairs, List.filterMap_cons, hq]
      simp only [processAnswers, hq, ih, totalPoints, earnedPoints, hap, List.map_cons,
        List.countP_cons, List.sum_cons, Prod.mk.injEq]
      exact ⟨trivial, by omega, trivial⟩

/-- C1 (amended): submitting an in-progress attempt scores each answer that
matches a stored question against that question's correct answer, yields
`score_percentage = earned_points / total_points × 100` (0 when
`total_points` is 0), sets `passed` iff the score reaches the quiz's
passing percentage, sets the status to completed, and persists one
`QuizAnswer` row per submitted answer that matches a stored question
(answers with an unknown `question_id` are skipped); an attempt whose
status is not `in_progress` fails with the InvalidState error. -/
theorem submit_quiz_attempt_spec (attempt : QuizAttempt) (quiz : Quiz)
    (questions : List QuizQuestion) (answers : List AnswerInput) :
    (attempt.status ≠ "in_progress" →
      submit_quiz_attempt attempt quiz questions answers =
        .error "Quiz attempt is not in progress") ∧
    (attempt.status = "in_progress" →
      ∃ att rows, submit_quiz_attempt attempt quiz questions answers = .ok (att, rows) ∧
        att.status = "completed" ∧
        att.score_percentage =
          (if 0 < totalPoints questions answers then
            (earnedPoints questions answers : ℚ) / (totalPoints questions answers : ℚ) * 100
          else 0) ∧
        (att.passed = true ↔ quiz.passing_score_percentage ≤ att.score_percentage) ∧
        rows = (answeredPairs questions answers).map (fun p =>
          (⟨p.1.question_id, p.1.selected_answer, p.1.selected_answer == p.2.correct_answer,
            if p.1.selected_answer == p.2.correct_answer then p.2.points else 0⟩ : QuizAnswer)) ∧
        rows.length = (answeredPairs questions answers).length) := by
  constructor
  · intro h
    rw [submit_quiz_attempt]
    simp [h]
  · intro h
    rw [submit_quiz_attempt]
    simp only [h, ne_eq, not_true_eq_false, if_false, processAnswers_eq]
    refine ⟨_, _, rfl, rfl, ?_, ?_, rfl, by simp⟩
    · simp
    · simp [decide_eq_true_iff]

/-- C1 counterexample to the claim as frozen: an in-progress attempt with
one submitted answer whose `question_id` (2) matches no stored question
yields zero persisted `QuizAnswer` rows, not one row per submitted
answer. -/
theorem submit_quiz_attempt_unknown_question_counterexample :
    submit_quiz_attempt ⟨"in_progress", 0, 0, false⟩ ⟨70, 3, 1⟩
        [⟨1, "A", 1⟩] [⟨2, "A"⟩] =
      .ok (⟨"completed", 0, 0, false⟩, []) ∧
    ([(⟨2, "A"⟩ : AnswerInput)].length = 1) := by
  constructor
  · rfl
  · rfl

/-- Witness for C1 (amended) at the spec's own example: two 1-point
questions, one answered correctly — score 50, not passed at threshold
70. -/
theorem submit_quiz_attempt_spec_witness :
    ∃ att rows,
      submit_quiz_attempt ⟨"in_progress", 0, 0, false⟩ ⟨70, 3, 2⟩
          [⟨1, "A", 1⟩, ⟨2, "B", 1⟩] [⟨1, "A"⟩, ⟨2, "C"⟩] = .ok (att, rows) ∧
      att.status = "completed" ∧
      att.score_percentage =
        (if 0 < totalPoints [⟨1, "A", 1⟩, ⟨2, "B", 1⟩] [⟨1, "A"⟩, ⟨2, "C"⟩] then
          (earnedPoints [⟨1, "A", 1⟩, ⟨2, "B", 1⟩] [⟨1, "A"⟩, ⟨2, "C"⟩] : ℚ) /
            (totalPoints [⟨1, "A", 1⟩, ⟨2, "B", 1⟩] [⟨1, "A"⟩, ⟨2, "C"⟩] : ℚ) * 100
        else 0) ∧
      (att.passed = true ↔ (70 : ℚ) ≤ att.score_percentage) := by
  have t := (submit_quiz_attempt_spec ⟨"in_progress", 0, 0, false⟩ ⟨70, 3, 2⟩
    [⟨1, "A", 1⟩, ⟨2, "B", 1⟩] [⟨1, "A"⟩, ⟨2, "C"⟩]).2 rfl
  obtain ⟨att, rows, h1, h2, h3, h4, _⟩ := t
  exact ⟨att, rows, h1, h2, h3, h4⟩

/-! ### C3: graduation-project submission validation -/

/-- The validation loop collects no error exactly when every answer is
valid. -/
theorem validationErrors_eq_nil_iff (questions : List GradQuestion) :
    ∀ answers, validationErrors questions answers = [] ↔
      ∀ a ∈ answers, validAnswer questions a := by
  intro answers
  induction answers with
  | nil => simp [validationErrors]
  | cons a rest ih =>
    rw [validationErrors]
    cases hq : grad_question_map questions a.question_id with
    | none =>
      simp only [List.cons_append, reduceCtorEq, false_iff, not_forall, List.mem_cons]
      exact ⟨a, Or.inl rfl, by simp [validAnswer, hq]⟩
    | some q =>
      constructor
      · intro h
        rw [List.append_eq_nil] at h
        obtain ⟨h1, h2⟩ := h
        rw [List.append_eq_nil] at h1
        obtain ⟨hshort, hlong⟩ := h1
        intro x hx
        rcases List.mem_cons.mp hx with hxa | hxr
        · subst hxa
          refine ⟨q, hq, ?_, ?_⟩
          · by_contra hc
            simp [Nat.lt_of_not_le hc] at hshort
          · by_contra hc
            simp [Nat.lt_of_not_le hc] at hlong
        · exact (ih.mp h2) x hxr
      · intro h
        obtain ⟨qa, hqa, hmin, hmax⟩ := h a (List.mem_cons_self a rest)
        rw [hq] at hqa
        cases hqa
        have hshort : ¬ a.text.length < q.answer_min_chars := by omega
        have hlong : ¬ a.text.length > q.answer_max_chars := by omega
        simp only [hshort, hlong, if_false, List.nil_append, List.append_nil]
        exact ih.mpr (fun x hx => h x (List.mem_cons_of_mem a hx))

/-- An answer with an unknown question id contributes its "Invalid
question_id" message to the collected errors. -/
theorem validationErrors_mem_invalid (questions : List GradQuestion) :
    ∀ answers, ∀ a ∈ answers, grad_question_map questions a.question_id = none →
      s!"Invalid question_id: {a.question_id}" ∈ validationErrors questions answers := by
  intro answers
  induction answers with
  | nil => intro a ha; exact absurd ha (List.not_mem_nil a)
  | cons b rest ih =>
    intro a ha hnone
    rw [validationErrors]
    rcases List.mem_cons.mp ha with hab | har
    · subst hab
      rw [hnone]
      exact List.mem_append_left _ (List.mem_singleton_self _)
    · exact List.mem_append_right _ (ih a har hnone)

/-- A too-short answer contributes its "too short" message, naming the
offending question, to the collected errors. -/
theorem validationErrors_mem_short (questions : List GradQuestion) :
    ∀ answers, ∀ a ∈ answers, ∀ q, grad_question_map questions a.question_id = some q →
      a.text.length < q.answer_min_chars →
      s!"Answer for {sq}{a.question_id}{sq} is too short (minimum {q.answer_min_chars} chars)"
        ∈ validationErrors questions answers := by
  intro answers
  induction answers with
  | nil => intro a ha; exact absurd ha (List.not_mem_nil a)
  | cons b rest ih =>
    intro a ha q hq hshort
    rw [validationErrors]
    rcases List.mem_cons.mp ha with hab | har
    · subst hab
      rw [hq]
      refine List.mem_append_left _ (List.mem_append_left _ ?_)
      simp [hshort]
    · exact List.mem_append_right _ (ih a har q hq hshort)

/-- A too-long answer contributes its "too long" message, naming the
offending question, to the collected errors. -/
theorem validationErrors_mem_long (questions : List GradQuestion) :
    ∀ answers, ∀ a ∈ answers, ∀ q, grad_question_map questions a.question_id = some q →
      q.answer_max_chars < a.text.length →
      s!"Answer for {sq}{a.question_id}{sq} is too long (maximum {q.answer_max_chars} chars)"
        ∈ validationErrors questions answers := by
  intro answers
  induction answers with
  | nil => intro a ha; exact absurd ha (List.not_mem_nil a)
  | cons b rest ih =>
    intro a ha q hq hlong
    rw [validationErrors]
    rcases List.mem_cons.mp ha with hab | har
    · subst hab
      rw [hq]
      refine List.mem_append_left _ (List.mem_append_right _ ?_)
      simp [hlong]
    · exact List.mem_append_right _ (ih a har q hq hlong)

/-- C3: a submission batch whose answer count differs from 5 is rejected;
a batch of 5 with any unknown question id or out-of-bounds answer length
is rejected as a whole, with the collected error naming the offending
question, and submissions are created only for a batch in which every
answer is valid — in which case exactly one submission row per answer is
returned.  (The route creates submission rows only after the validation
loop has collected no error, so every rejected batch persists nothing.) -/
theorem submit_graduation_answers_spec (sessions : List Nat) (session_id : Nat)
    (questions : List GradQuestion) (answers : List GradAnswer)
    (hs : session_id ∈ sessions) (hq : questions.length = 5) :
    (answers.length ≠ 5 →
      submit_graduation_answers sessions session_id questions answers =
        .error s!"Expected exactly 5 answers, got {answers.length}") ∧
    (∀ rows, submit_graduation_answers sessions session_id questions answers = .ok rows →
      answers.length = 5 ∧ (∀ a ∈ answers, validAnswer questions a) ∧
      rows.length = answers.length) ∧
    (answers.length = 5 →
      ((∀ a ∈ answers, validAnswer questions a) →
        submit_graduation_answers sessions session_id questions answers =
          .ok (answers.map (fun a =>
            { session_id := session_id
              question_id := ((grad_question_map questions a.question_id).map
                (fun q => q.id)).getD 0
              answer_text := a.text }))) ∧
      ((∃ a ∈ answers, ¬ validAnswer questions a) →
        submit_graduation_answers sessions session_id questions answers =
          .error (String.intercalate "; " (validationErrors questions answers)) ∧
        validationErrors questions answers ≠ [])) := by
  refine ⟨?_, ?_, ?_⟩
  · intro hlen
    rw [submit_graduation_answers]
    simp [hs, hlen]
  · intro rows hok
    rw [submit_graduation_answers] at hok
    simp only [hs, not_true_eq_false, if_false] at hok
    by_cases hlen : answers.length = 5
    · simp only [hlen, ne_eq, not_true_eq_false, if_false, hq] at hok
      by_cases herr : validationErrors questions answers = []
      · simp only [herr, ne_eq, not_true_eq_false, if_false] at hok
        cases hok
        exact ⟨hlen, (validationErrors_eq_nil_iff questions answers).mp herr, by simp⟩
      · simp [herr] at hok
    · simp [hlen] at hok
  · intro hlen
    constructor
    · intro hvalid
      have herr : validationErrors questions answers = [] :=
        (validationErrors_eq_nil_iff questions answers).mpr hvalid
      rw [submit_graduation_answers]
      simp [hs, hlen, hq, herr]
    · intro hbad
      have herr : validationErrors questions answers ≠ [] := by
        intro hnil
        obtain ⟨a, ha, hna⟩ := hbad
        exact hna ((validationErrors_eq_nil_iff questions answers).mp hnil a ha)
      refine ⟨?_, herr⟩
      rw [submit_graduation_answers]
      simp [hs, hlen, hq, herr]

/-- Witness for C3: a concrete session with five stored questions; a fully
valid batch of 5 answers is accepted with one row per answer, a batch
with one too-short answer is rejected with the error naming question
`q3`, and a 4-answer batch is rejected by the count check. -/
theorem submit_graduation_answers_spec_witness :
    submit_graduation_answers [1] 1
        [⟨11, "q1", 2, 5⟩, ⟨12, "q2", 2, 5⟩, ⟨13, "q3", 2, 5⟩, ⟨14, "q4", 2, 5⟩, ⟨15, "q5", 2, 5⟩]
        [⟨"q1", "abc"⟩, ⟨"q2", "abc"⟩, ⟨"q3", "abc"⟩, ⟨"q4", "abc"⟩, ⟨"q5", "abc"⟩] =
      .ok [⟨1, 11, "abc"⟩, ⟨1, 12, "abc"⟩, ⟨1, 13, "abc"⟩, ⟨1, 14, "abc"⟩, ⟨1, 15, "abc"⟩] ∧
    (submit_graduation_answers [1] 1
        [⟨11, "q1", 2, 5⟩, ⟨12, "q2", 2, 5⟩, ⟨13, "q3", 2, 5⟩, ⟨14, "q4", 2, 5⟩, ⟨15, "q5", 2, 5⟩]
        [⟨"q1", "abc"⟩, ⟨"q2", "abc"⟩, ⟨"q3", "x"⟩, ⟨"q4", "abc"⟩, ⟨"q5", "abc"⟩] =
      .error (String.intercalate "; " (validationErrors
        [⟨11, "q1", 2, 5⟩, ⟨12, "q2", 2, 5⟩, ⟨13, "q3", 2, 5⟩, ⟨14, "q4", 2, 5⟩, ⟨15, "q5", 2, 5⟩]
        [⟨"q1", "abc"⟩, ⟨"q2", "abc"⟩, ⟨"q3", "x"⟩, ⟨"q4", "abc"⟩, ⟨"q5", "abc"⟩]))) ∧
    submit_graduation_answers [1] 1
        [⟨11, "q1", 2, 5⟩, ⟨12, "q2", 2, 5⟩, ⟨13, "q3", 2, 5⟩, ⟨14, "q4", 2, 5⟩, ⟨15, "q5", 2, 5⟩]
        [⟨"q1", "abc"⟩, ⟨"q2", "abc"⟩, ⟨"q3", "abc"⟩, ⟨"q4", "abc"⟩] =
      .error "Expected exactly 5 answers, got 4" := by
  have t1 := ((submit_graduation_answers_spec [1] 1
    [⟨11, "q1", 2, 5⟩, ⟨12, "q2", 2, 5⟩, ⟨13, "q3", 2, 5⟩, ⟨14, "q4", 2, 5⟩, ⟨15, "q5", 2, 5⟩]
    [⟨"q1", "abc"⟩, ⟨"q2", "abc"⟩, ⟨"q3", "abc"⟩, ⟨"q4", "abc"⟩, ⟨"q5", "abc"⟩]
    (by decide) (by decide)).2.2 (by decide)).1 (by decide)
  have t2 := ((submit_graduation_answers_spec [1] 1
    [⟨11, "q1", 2, 5⟩, ⟨12, "q2", 2, 5⟩, ⟨13, "q3", 2, 5⟩, ⟨14, "q4", 2, 5⟩, ⟨15, "q5", 2, 5⟩]
    [⟨"q1", "abc"⟩, ⟨"q2", "abc"⟩, ⟨"q3", "x"⟩, ⟨"q4", "abc"⟩, ⟨"q5", "abc"⟩]
    (by decide) (by decide)).2.2 (by decide)).2
    ⟨⟨"q3", "x"⟩, by decide, by decide⟩
  have t3 := (submit_graduation_answers_spec [1] 1
    [⟨11, "q1", 2, 5⟩, ⟨12, "q2", 2, 5⟩, ⟨13, "q3", 2, 5⟩, ⟨14, "q4", 2, 5⟩, ⟨15, "q5", 2, 5⟩]
    [⟨"q1", "abc"⟩, ⟨"q2", "abc"⟩, ⟨"q3", "abc"⟩, ⟨"q4", "abc"⟩]
    (by decide) (by decide)).1 (by decide)
  refine ⟨?_, t2.1, t3⟩
  rw [t1]
  rfl

/-! ### C4: idempotent roadmap creation -/

/-- C4: when a roadmap already exists for the session, executing roadmap
creation again returns it reconstructed from the stored goals ordered by
`goal_number` and leaves the database unchanged — no new `Roadmap` or
`RoadmapGoal` row, and the stored roadmap (same id) is still the one
found for the session. -/
theorem execute_roadmap_creation_idempotent (st : DBState) (session_id : Nat)
    (llmOutput : RoadmapSkeletonResponse) (args : ToolArguments) (r : RoadmapRow)
    (h : get_roadmap_by_session st session_id = some r) :
    (execute_roadmap_creation st session_id llmOutput args).2 = st ∧
    get_roadmap_by_session (execute_roadmap_creation st session_id llmOutput args).2
      session_id = some r ∧
    (execute_roadmap_creation st session_id llmOutput args).1 = roadmapToResponse st r ∧
    List.Sorted (fun a b => a.goal_number ≤ b.goal_number)
      (execute_roadmap_creation st session_id llmOutput args).1.goals ∧
    (execute_roadmap_creation st session_id llmOutput args).1.goals.Perm
      ((get_goals_by_roadmap st r.id).map goalToSchema) := by
  haveI hTot : IsTotal GoalRow (fun a b => a.goal_number ≤ b.goal_number) :=
    ⟨fun a b => Nat.le_total a.goal_number b.goal_number⟩
  haveI hTrans : IsTrans GoalRow (fun a b => a.goal_number ≤ b.goal_number) :=
    ⟨fun _ _ _ hab hbc => Nat.le_trans hab hbc⟩
  have hexec : execute_roadmap_creation st session_id llmOutput args =
      (roadmapToResponse st r, st) := by
    rw [execute_roadmap_creation, h]
  rw [hexec]
  refine ⟨rfl, h, rfl, ?_, ?_⟩
  · have hsorted := List.sorted_insertionSort
      (fun a b : GoalRow => a.goal_number ≤ b.goal_number)
      (get_goals_by_roadmap st r.id)
    exact List.Pairwise.map goalToSchema (fun a b hab => hab) hsorted
  · exact List.Perm.map goalToSchema
      (List.perm_insertionSort (fun a b : GoalRow => a.goal_number ≤ b.goal_number)
        (get_goals_by_roadmap st r.id))

/-- Witness for C4 at a concrete database whose session 1 already has a
roadmap (id 5) with two goals stored out of order. -/
theorem execute_roadmap_creation_idempotent_witness :
    (execute_roadmap_creation
        ⟨[⟨5, 1, "req", 3, some "gp", some "gpt"⟩],
         [⟨21, 5, 2, "b", "db", 3, .intermediate, 10, []⟩,
          ⟨20, 5, 1, "a", "da", 1, .advanced, 20, []⟩], [], 30⟩ 1
        ⟨[], "x", "y"⟩ ⟨"ignored"⟩).2 =
      ⟨[⟨5, 1, "req", 3, some "gp", some "gpt"⟩],
       [⟨21, 5, 2, "b", "db", 3, .intermediate, 10, []⟩,
        ⟨20, 5, 1, "a", "da", 1, .advanced, 20, []⟩], [], 30⟩ ∧
    (execute_roadmap_creation
        ⟨[⟨5, 1, "req", 3, some "gp", some "gpt"⟩],
         [⟨21, 5, 2, "b", "db", 3, .intermediate, 10, []⟩,
          ⟨20, 5, 1, "a", "da", 1, .advanced, 20, []⟩], [], 30⟩ 1
        ⟨[], "x", "y"⟩ ⟨"ignored"⟩).1 =
      roadmapToResponse
        ⟨[⟨5, 1, "req", 3, some "gp", some "gpt"⟩],
         [⟨21, 5, 2, "b", "db", 3, .intermediate, 10, []⟩,
          ⟨20, 5, 1, "a", "da", 1, .advanced, 20, []⟩], [], 30⟩
        ⟨5, 1, "req", 3, some "gp", some "gpt"⟩ ∧
    List.Sorted (fun a b => a.goal_number ≤ b.goal_number)
      (execute_roadmap_creation
        ⟨[⟨5, 1, "req", 3, some "gp", some "gpt"⟩],
         [⟨21, 5, 2, "b", "db", 3, .intermediate, 10, []⟩,
          ⟨20, 5, 1, "a", "da", 1, .advanced, 20, []⟩], [], 30⟩ 1
        ⟨[], "x", "y"⟩ ⟨"ignored"⟩).1.goals := by
  have t := execute_roadmap_creation_idempotent
    ⟨[⟨5, 1, "req", 3, some "gp", some "gpt"⟩],
     [⟨21, 5, 2, "b", "db", 3, .intermediate, 10, []⟩,
      ⟨20, 5, 1, "a", "da", 1, .advanced, 20, []⟩], [], 30⟩ 1
    ⟨[], "x", "y"⟩ ⟨"ignored"⟩ ⟨5, 1, "req", 3, some "gp", some "gpt"⟩ rfl
  exact ⟨t.1, t.2.2.1, t.2.2.2.1⟩

/-! ### C5: skill level derived from priority -/

/-- C5: every goal row persisted by the save path shared by roadmap
creation and editing carries `skill_level = skillFromPriority priority`
(priority 1 or 2 → advanced, 3 → intermediate, 4 or 5 → beginner); the
`RoadmapGoalSchema` the model produces has no skill-level field, so no
model output can influence it.  The last two conjuncts tie the save path
to its two callers. -/
theorem saved_goal_skill_level (st : DBState) (session_id : Nat)
    (resp : RoadmapSkeletonResponse) (args : ToolArguments) :
    (∀ row ∈ (save_roadmap_to_db st session_id resp args).goals,
      row ∈ st.goals ∨
        (row.skill_level = skillFromPriority row.priority ∧
          ∃ gd ∈ resp.goals, row.priority = gd.priority ∧ row.title = gd.title)) ∧
    (∀ gd ∈ resp.goals, ∃ row ∈ (save_roadmap_to_db st session_id resp args).goals,
      row.title = gd.title ∧ row.description = gd.description ∧
      row.priority = gd.priority ∧ row.skill_level = skillFromPriority gd.priority) ∧
    (∀ p : Nat,
      ((p = 1 ∨ p = 2) → skillFromPriority p = .advanced) ∧
      (p = 3 → skillFromPriority p = .intermediate) ∧
      ((p = 4 ∨ p = 5) → skillFromPriority p = .beginner)) ∧
    (get_roadmap_by_session st session_id = none →
      execute_roadmap_creation st session_id resp args =
        (resp, save_roadmap_to_db st session_id resp args)) ∧
    (∀ r, get_roadmap_by_session st session_id = some r →
      execute_roadmap_skeleton_editing st session_id resp args =
        .ok (resp, save_roadmap_to_db st session_id resp args)) := by
  refine ⟨?_, ?_, ?_, ?_, ?_⟩
  · intro row hrow
    rw [save_roadmap_to_db] at hrow
    simp only [List.mem_append] at hrow
    rcases hrow with hold | hnew
    · exact Or.inl hold
    · right
      simp only [List.mem_map] at hnew
      obtain ⟨p, hp, hrow⟩ := hnew
      subst hrow
      have hmem : p.2 ∈ resp.goals := by
        have hget := List.mem_enum_iff_getElem?.mp hp
        exact List.getElem?_mem hget
      exact ⟨rfl, p.2, hmem, rfl, rfl⟩
  · intro gd hgd
    obtain ⟨n, hn, hget⟩ := List.mem_iff_getElem.mp hgd
    refine ⟨{ id := st.nextId + 1 + n
              roadmap_id := st.nextId
              goal_number := gd.goal_number
              title := gd.title
              description := gd.description
              priority := gd.priority
              skill_level := skillFromPriority gd.priority
              estimated_hours := gd.estimated_hours
              prerequisites := gd.prerequisites }, ?_, rfl, rfl, rfl, rfl⟩
    rw [save_roadmap_to_db]
    simp only [List.mem_append]
    right
    simp only [List.mem_map]
    refine ⟨(n, gd), ?_, rfl⟩
    rw [List.mem_enum_iff_getElem?]
    simp [List.getElem?_eq_getElem hn, hget]
  · intro p
    refine ⟨?_, ?_, ?_⟩
    · rintro (h | h) <;> subst h <;> rfl
    · intro h; subst h; rfl
    · rintro (h | h) <;> subst h <;> rfl
  · intro h
    rw [execute_roadmap_creation, h]
  · intro r h
    rw [execute_roadmap_skeleton_editing, h]

/-- Witness for C5: saving a model response with goals of priority 1
through 5 into an empty database persists them with advanced, advanced,
intermediate, beginner, beginner. -/
theorem saved_goal_skill_level_witness :
    (∀ gd ∈ ([⟨1, "g1", "d", 1, 5, []⟩, ⟨2, "g2", "d", 2, 5, []⟩, ⟨3, "g3", "d", 3, 5, []⟩,
        ⟨4, "g4", "d", 4, 5, []⟩, ⟨5, "g5", "d", 5, 5, []⟩] : List RoadmapGoalSchema),
      ∃ row ∈ (save_roadmap_to_db ⟨[], [], [], 0⟩ 1
          ⟨[⟨1, "g1", "d", 1, 5, []⟩, ⟨2, "g2", "d", 2, 5, []⟩, ⟨3, "g3", "d", 3, 5, []⟩,
            ⟨4, "g4", "d", 4, 5, []⟩, ⟨5, "g5", "d", 5, 5, []⟩], "gp", "t"⟩ ⟨"r"⟩).goals,
        row.title = gd.title ∧ row.description = gd.description ∧
        row.priority = gd.priority ∧ row.skill_level = skillFromPriority gd.priority) ∧
    skillFromPriority 1 = .advanced ∧ skillFromPriority 2 = .advanced ∧
    skillFromPriority 3 = .intermediate ∧ skillFromPriority 4 = .beginner ∧
    skillFromPriority 5 = .beginner := by
  have t := saved_goal_skill_level ⟨[], [], [], 0⟩ 1
    ⟨[⟨1, "g1", "d", 1, 5, []⟩, ⟨2, "g2", "d", 2, 5, []⟩, ⟨3, "g3", "d", 3, 5, []⟩,
      ⟨4, "g4", "d", 4, 5, []⟩, ⟨5, "g5", "d", 5, 5, []⟩], "gp", "t"⟩ ⟨"r"⟩
  refine ⟨t.2.1, ?_, ?_, ?_, ?_, ?_⟩
  · exact (t.2.2.1 1).1 (Or.inl rfl)
  · exact (t.2.2.1 2).1 (Or.inr rfl)
  · exact (t.2.2.1 3).2.1 rfl
  · exact (t.2.2.1 4).2.2 (Or.inl rfl)
  · exact (t.2.2.1 5).2.2 (Or.inr rfl)

/-! ### C6: tool gating by roadmap state -/

/-- C6 counterexample to the claim as frozen: in a state where the
session's roadmap has a learning material, `plan_action_stream` still
offers `createLearningMaterials` instead of offering no tools. -/
theorem plan_action_stream_ignores_materials_counterexample :
    get_materials_by_roadmap ⟨[⟨1, 1, "r", 1, none, none⟩], [], [⟨7, 1⟩], 2⟩ 1 ≠ [] ∧
    get_roadmap_by_session ⟨[⟨1, 1, "r", 1, none, none⟩], [], [⟨7, 1⟩], 2⟩ 1 =
      some ⟨1, 1, "r", 1, none, none⟩ ∧
    plan_action_stream_tools ⟨[⟨1, 1, "r", 1, none, none⟩], [], [⟨7, 1⟩], 2⟩ 1 =
      ["createLearningMaterials"] ∧
    plan_action_tools ⟨[⟨1, 1, "r", 1, none, none⟩], [], [⟨7, 1⟩], 2⟩ 1 = [] := by
  refine ⟨by decide, by decide, by decide, by decide⟩

/-- C6 (amended): `plan_action` offers tools exactly as claimed — no
roadmap → only `createRoadmapSkeleton`; roadmap without materials → only
`createLearningMaterials`; materials present → no tools — while
`plan_action_stream` checks only roadmap existence and offers
`createLearningMaterials` whenever a roadmap exists, regardless of
materials. -/
theorem plan_action_tool_gating (st : DBState) (session_id : Nat) :
    (get_roadmap_by_session st session_id = none →
      plan_action_tools st session_id = ["createRoadmapSkeleton"] ∧
      plan_action_stream_tools st session_id = ["createRoadmapSkeleton"]) ∧
    (∀ r, get_roadmap_by_session st session_id = some r →
      (get_materials_by_roadmap st r.id = [] →
        plan_action_tools st session_id = ["createLearningMaterials"]) ∧
      (get_materials_by_roadmap st r.id ≠ [] →
        plan_action_tools st session_id = []) ∧
      plan_action_stream_tools st session_id = ["createLearningMaterials"]) := by
  constructor
  · intro h
    constructor
    · rw [plan_action_tools]
      simp [h]
    · rw [plan_action_stream_tools]
      simp [h]
  · intro r h
    refine ⟨?_, ?_, ?_⟩
    · intro hm
      rw [plan_action_tools]
      simp [h, hm]
    · intro hm
      rw [plan_action_tools]
      have : 0 < (get_materials_by_roadmap st r.id).length := List.length_pos.mpr hm
      simp [h, this]
    · rw [plan_action_stream_tools]
      simp [h]

/-- Witness for C6 (amended) at three concrete states: no roadmap, a
roadmap without materials, and a roadmap with one material. -/
theorem plan_action_tool_gating_witness :
    plan_action_tools ⟨[], [], [], 0⟩ 1 = ["createRoadmapSkeleton"] ∧
    plan_action_stream_tools ⟨[], [], [], 0⟩ 1 = ["createRoadmapSkeleton"] ∧
    plan_action_tools ⟨[⟨1, 1, "r", 1, none, none⟩], [], [], 2⟩ 1 =
      ["createLearningMaterials"] ∧
    plan_action_tools ⟨[⟨1, 1, "r", 1, none, none⟩], [], [⟨7, 1⟩], 2⟩ 1 = [] ∧
    plan_action_stream_tools ⟨[⟨1, 1, "r", 1, none, none⟩], [], [⟨7, 1⟩], 2⟩ 1 =
      ["createLearningMaterials"] := by
  have t0 := (plan_action_tool_gating ⟨[], [], [], 0⟩ 1).1 (by decide)
  have t1 := (plan_action_tool_gating ⟨[⟨1, 1, "r", 1, none, none⟩], [], [], 2⟩ 1).2
    ⟨1, 1, "r", 1, none, none⟩ (by decide)
  have t2 := (plan_action_tool_gating ⟨[⟨1, 1, "r", 1, none, none⟩], [], [⟨7, 1⟩], 2⟩ 1).2
    ⟨1, 1, "r", 1, none, none⟩ (by decide)
  exact ⟨t0.1, t0.2, t1.1 (by decide), t2.2.1 (by decide), t2.2.2⟩

/-! ### C7: semantic-cache duplicate detection -/

/-- Neighbors that are neither exact matches nor at near-duplicate
similarity are scanned past without effect. -/
theorem duplicateScan_skip (material : MaterialCreate) :
    ∀ pre rest, (∀ h ∈ pre, isExactMatch h.material material = false ∧
        h.similarity_score < nearDuplicateThreshold) →
      duplicateScan material (pre ++ rest) = duplicateScan material rest := by
  intro pre
  induction pre with
  | nil => intro rest _; rfl
  | cons h pre ih =>
    intro rest hclean
    obtain ⟨hex, hsim⟩ := hclean h (List.mem_cons_self h pre)
    rw [List.cons_append, duplicateScan]
    simp only [hex, Bool.false_eq_true, if_false, not_le.mpr hsim, if_neg (not_le.mpr hsim)]
    exact ih rest (fun x hx => hclean x (List.mem_cons_of_mem h hx))

/-- C7: the store request searches the top 5 neighbors at threshold 0.95;
scanning those neighbors in order, the first neighbor that is an exact
trim-and-casefold title+content match fails the request with Conflict and
match_type "exact", otherwise the first neighbor at similarity ≥ 0.98
fails it with Conflict and match_type "near-duplicate"; when no neighbor
triggers either check, the material is stored. -/
theorem store_material_duplicate_detection (material : MaterialCreate)
    (search : ℚ → Nat → List SearchHit) :
    (duplicateSearchThreshold = 95 / 100 ∧ duplicateSearchLimit = 5 ∧
      store_material material search =
        duplicateScan material (search (95 / 100) 5)) ∧
    (∀ pre hit post,
      (∀ h ∈ pre, isExactMatch h.material material = false ∧
        h.similarity_score < nearDuplicateThreshold) →
      (isExactMatch hit.material material = true →
        duplicateScan material (pre ++ hit :: post) = .conflict "exact" hit.material.id) ∧
      (isExactMatch hit.material material = false →
        nearDuplicateThreshold ≤ hit.similarity_score →
        duplicateScan material (pre ++ hit :: post) =
          .conflict "near-duplicate" hit.material.id)) ∧
    (∀ hits, (∀ h ∈ hits, isExactMatch h.material material = false ∧
        h.similarity_score < nearDuplicateThreshold) →
      duplicateScan material hits = .stored) := by
  refine ⟨⟨rfl, rfl, rfl⟩, ?_, ?_⟩
  · intro pre hit post hclean
    constructor
    · intro hex
      rw [duplicateScan_skip material pre (hit :: post) hclean, duplicateScan]
      simp [hex]
    · intro hex hsim
      rw [duplicateScan_skip material pre (hit :: post) hclean, duplicateScan]
      simp [hex, hsim]
  · intro hits hclean
    have := duplicateScan_skip material hits [] hclean
    simpa using this

/-- Witness for C7 at concrete neighbor lists: an exact case-insensitive
match conflicts as "exact", a 0.985-similar non-exact neighbor conflicts
as "near-duplicate", and a neighbor list with no trigger stores. -/
theorem store_material_duplicate_detection_witness :
    duplicateScan ⟨"Python Lists", "Content A"⟩
        [⟨⟨"id1", " python lists ", "content a"⟩, 99 / 100⟩] =
      .conflict "exact" "id1" ∧
    duplicateScan ⟨"Python Lists", "Content A"⟩
        [⟨⟨"id2", "Python Arrays", "Other"⟩, 985 / 1000⟩] =
      .conflict "near-duplicate" "id2" ∧
    duplicateScan ⟨"Python Lists", "Content A"⟩
        [⟨⟨"id3", "Python Arrays", "Other"⟩, 96 / 100⟩] = .stored := by
  have t := store_material_duplicate_detection ⟨"Python Lists", "Content A"⟩ (fun _ _ => [])
  refine ⟨?_, ?_, ?_⟩
  · have h := (t.2.1 [] ⟨⟨"id1", " python lists ", "content a"⟩, 99 / 100⟩ []
      (by intro h hh; exact absurd hh (List.not_mem_nil h))).1 (by decide)
    simpa using h
  · have h := (t.2.1 [] ⟨⟨"id2", "Python Arrays", "Other"⟩, 985 / 1000⟩ []
      (by intro h hh; exact absurd hh (List.not_mem_nil h))).2 (by decide)
      (by rw [nearDuplicateThreshold]; norm_num)
    simpa using h
  · exact t.2.2 [⟨⟨"id3", "Python Arrays", "Other"⟩, 96 / 100⟩]
      (by intro h hh; rw [List.mem_singleton] at hh; subst hh;
          exact ⟨by decide, by rw [nearDuplicateThreshold]; norm_num⟩)

/-! ### C9: cosine similarity properties -/

/-- Sums of squares are nonnegative. -/
theorem sumSquares_nonneg (v : List ℝ) : 0 ≤ sumSquares v := by
  apply List.sum_nonneg
  intro x hx
  obtain ⟨y, _, rfl⟩ := List.mem_map.mp hx
  positivity

/-- A vector with a nonzero entry has positive sum of squares. -/
theorem sumSquares_pos (v : List ℝ) (h : ∃ x ∈ v, x ≠ 0) : 0 < sumSquares v := by
  induction v with
  | nil => simp at h
  | cons a rest ih =>
    rw [sumSquares, List.map_cons, List.sum_cons]
    obtain ⟨x, hx, hxne⟩ := h
    rcases List.mem_cons.mp hx with hxa | hxr
    · subst hxa
      have h1 : 0 < x ^ 2 := by positivity
      have h2 : 0 ≤ sumSquares rest := sumSquares_nonneg rest
      rw [sumSquares] at h2
      linarith
    · have h1 : 0 < sumSquares rest := ih ⟨x, hxr, hxne⟩
      have h2 : 0 ≤ a ^ 2 := by positivity
      rw [sumSquares] at h1
      linarith

/-- An all-zero vector has zero sum of squares. -/
theorem sumSquares_eq_zero (v : List ℝ) (h : ∀ x ∈ v, x = 0) : sumSquares v = 0 := by
  induction v with
  | nil => rfl
  | cons a rest ih =>
    rw [sumSquares, List.map_cons, List.sum_cons, h a (List.mem_cons_self a rest)]
    rw [sumSquares] at ih
    rw [ih (fun x hx => h x (List.mem_cons_of_mem a hx))]
    norm_num

/-- The dot product of a vector with itself is its sum of squares. -/
theorem dotProduct_self (v : List ℝ) : dotProduct v v = sumSquares v := by
  induction v with
  | nil => rfl
  | cons a rest ih =>
    rw [dotProduct, List.zipWith_cons_cons, List.sum_cons, sumSquares, List.map_cons,
      List.sum_cons]
    rw [dotProduct] at ih
    rw [sumSquares] at ih
    rw [ih]
    ring_nf

/-- The dot product of a vector with its negation is the negated sum of
squares. -/
theorem dotProduct_negVec (v : List ℝ) : dotProduct v (negVec v) = -sumSquares v := by
  induction v with
  | nil => simp [dotProduct, negVec, sumSquares]
  | cons a rest ih =>
    rw [negVec, List.map_cons, dotProduct, List.zipWith_cons_cons, List.sum_cons, sumSquares,
      List.map_cons, List.sum_cons]
    rw [negVec] at ih
    rw [dotProduct] at ih
    rw [sumSquares] at ih
    rw [ih]
    ring

/-- Negation preserves the sum of squares. -/
theorem sumSquares_negVec (v : List ℝ) : sumSquares (negVec v) = sumSquares v := by
  rw [sumSquares, negVec, List.map_map, sumSquares]
  congr 1
  apply List.map_congr_left
  intro x _
  simp

/-- A vector's norm squared is its sum of squares. -/
theorem vecNorm_mul_self (v : List ℝ) : vecNorm v * vecNorm v = sumSquares v :=
  Real.mul_self_sqrt (sumSquares_nonneg v)

/-- The norm is zero exactly when the sum of squares is. -/
theorem vecNorm_eq_zero_iff (v : List ℝ) : vecNorm v = 0 ↔ sumSquares v = 0 := by
  rw [vecNorm]
  exact Real.sqrt_eq_zero (sumSquares_nonneg v)

/-- C9: `cosine_similarity v v = 1` for every vector with a nonzero entry;
`cosine_similarity v (-v) = -1` likewise; similarity against an all-zero
vector is 0 on either side; and similarity of equal-length vectors is
symmetric. -/
theorem cosine_similarity_props :
    (∀ v : List ℝ, (∃ x ∈ v, x ≠ 0) → cosine_similarity v v = 1) ∧
    (∀ v : List ℝ, (∃ x ∈ v, x ≠ 0) → cosine_similarity v (negVec v) = -1) ∧
    (∀ v w : List ℝ, (∀ x ∈ w, x = 0) →
      cosine_similarity v w = 0 ∧ cosine_similarity w v = 0) ∧
    (∀ v w : List ℝ, v.length = w.length →
      cosine_similarity v w = cosine_similarity w v) := by
  have hnz : ∀ v : List ℝ, (∃ x ∈ v, x ≠ 0) → vecNorm v ≠ 0 := by
    intro v hv hz
    have := (vecNorm_eq_zero_iff v).mp hz
    exact absurd this (ne_of_gt (sumSquares_pos v hv))
  refine ⟨?_, ?_, ?_, ?_⟩
  · intro v hv
    rw [cosine_similarity, if_neg (by push_neg; exact ⟨hnz v hv, hnz v hv⟩)]
    rw [dotProduct_self, vecNorm_mul_self]
    exact div_self (ne_of_gt (sumSquares_pos v hv))
  · intro v hv
    have hvn : ∃ x ∈ negVec v, x ≠ 0 := by
      obtain ⟨x, hx, hxne⟩ := hv
      exact ⟨-x, List.mem_map.mpr ⟨x, hx, rfl⟩, neg_ne_zero.mpr hxne⟩
    rw [cosine_similarity, if_neg (by push_neg; exact ⟨hnz v hv, hnz (negVec v) hvn⟩)]
    rw [dotProduct_negVec]
    rw [vecNorm, vecNorm, sumSquares_negVec, ← vecNorm, vecNorm_mul_self]
    rw [neg_div]
    rw [div_self (ne_of_gt (sumSquares_pos v hv))]
  · intro v w hw
    have hz : vecNorm w = 0 := (vecNorm_eq_zero_iff w).mpr (sumSquares_eq_zero w hw)
    constructor
    · rw [cosine_similarity, if_pos (Or.inr hz)]
    · rw [cosine_similarity, if_pos (Or.inl hz)]
  · intro v w _
    rw [cosine_similarity, cosine_similarity]
    have hdot : dotProduct v w = dotProduct w v := by
      rw [dotProduct, dotProduct,
        List.zipWith_comm_of_comm (fun a b => a * b) (fun x y => mul_comm x y) v w]
    by_cases h1 : vecNorm v = 0 ∨ vecNorm w = 0
    · rw [if_pos h1, if_pos (Or.symm h1)]
    · rw [if_neg h1, if_neg (fun hc => h1 (Or.symm hc))]
      rw [hdot, mul_comm]

/-- Witness for C9 at concrete vectors. -/
theorem cosine_similarity_props_witness :
    cosine_similarity [(1 : ℝ), 2] [(1 : ℝ), 2] = 1 ∧
    cosine_similarity [(1 : ℝ), 2] (negVec [(1 : ℝ), 2]) = -1 ∧
    cosine_similarity [(1 : ℝ), 2] [(0 : ℝ), 0] = 0 ∧
    cosine_similarity [(0 : ℝ), 0] [(1 : ℝ), 2] = 0 ∧
    cosine_similarity [(1 : ℝ), 2] [(3 : ℝ), 4] = cosine_similarity [(3 : ℝ), 4] [(1 : ℝ), 2] := by
  have hne : ∃ x ∈ [(1 : ℝ), 2], x ≠ 0 := ⟨1, by simp, one_ne_zero⟩
  have hzero : ∀ x ∈ [(0 : ℝ), 0], x = 0 := by intro x hx; simpa using hx
  have t := cosine_similarity_props
  have hz := t.2.2.1 [(1 : ℝ), 2] [(0 : ℝ), 0] hzero
  exact ⟨t.1 _ hne, t.2.1 _ hne, hz.1, hz.2, t.2.2.2 _ _ rfl⟩

/-! ### C8: prompt variable substitution -/

/-- Replacement on the empty list is the empty list at any fuel. -/
theorem pyReplaceAux_nil (p v : List Char) (f : Nat) : pyReplaceAux p v f [] = [] := by
  cases f <;> rfl

/-- The fuel argument is irrelevant once it covers the list's length. -/
theorem pyReplaceAux_fuel (p v : List Char) :
    ∀ (n : Nat) (l : List Char), l.length ≤ n →
      ∀ f₁ f₂, l.length ≤ f₁ → l.length ≤ f₂ →
        pyReplaceAux p v f₁ l = pyReplaceAux p v f₂ l := by
  intro n
  induction n with
  | zero =>
    intro l hl f₁ f₂ _ _
    have : l = [] := List.length_eq_zero.mp (Nat.le_antisymm hl (Nat.zero_le _))
    subst this
    rw [pyReplaceAux_nil, pyReplaceAux_nil]
  | succ n ih =>
    intro l hl f₁ f₂ h₁ h₂
    cases l with
    | nil => rw [pyReplaceAux_nil, pyReplaceAux_nil]
    | cons c cs =>
      cases f₁ with
      | zero => simp at h₁
      | succ g₁ =>
        cases f₂ with
        | zero => simp at h₂
        | succ g₂ =>
          simp only [pyReplaceAux]
          by_cases hc : startsWith p (c :: cs) = true ∧ p ≠ []
          · rw [if_pos hc, if_pos hc]
            congr 1
            have hplen : 1 ≤ p.length := by
              cases p with
              | nil => exact absurd rfl hc.2
              | cons _ _ => simp
            apply ih
            · simp only [List.length_drop, List.length_cons]
              simp only [List.length_cons] at hl
              omega
            · simp only [List.length_drop, List.length_cons]
              simp only [List.length_cons] at h₁
              omega
            · simp only [List.length_drop, List.length_cons]
              simp only [List.length_cons] at h₂
              omega
          · rw [if_neg hc, if_neg hc]
            congr 1
            apply ih
            · simp only [List.length_cons] at hl; omega
            · simp only [List.length_cons] at h₁; omega
            · simp only [List.length_cons] at h₂; omega

/-- One scan step when the pattern does not match at the head. -/
theorem pyReplace_cons_of_not_match (p v : List Char) (c : Char) (cs : List Char)
    (h : startsWith p (c :: cs) = false) :
    pyReplace p v (c :: cs) = c :: pyReplace p v cs := by
  rw [pyReplace, pyReplace, List.length_cons]
  simp only [pyReplaceAux]
  rw [if_neg (fun hc => by rw [h] at hc; exact Bool.false_ne_true hc.1)]

/-- One scan step when the (nonempty) pattern matches at the head. -/
theorem pyReplace_cons_of_match (p v : List Char) (c : Char) (cs : List Char)
    (h : startsWith p (c :: cs) = true) (hp : p ≠ []) :
    pyReplace p v (c :: cs) = v ++ pyReplace p v ((c :: cs).drop p.length) := by
  rw [pyReplace, pyReplace, List.length_cons]
  simp only [pyReplaceAux]
  rw [if_pos ⟨h, hp⟩]
  congr 1
  have hplen : 1 ≤ p.length := by
    cases p with
    | nil => exact absurd rfl hp
    | cons _ _ => simp
  apply pyReplaceAux_fuel p v (((c :: cs).drop p.length).length)
  · exact Nat.le_refl _
  · simp only [List.length_drop, List.length_cons]
    omega
  · exact Nat.le_refl _

/-- A pattern is an initial segment of itself followed by anything. -/
theorem startsWith_append_self (p b : List Char) : startsWith p (p ++ b) = true := by
  induction p with
  | nil => rfl
  | cons c cs ih => simp [startsWith, ih]

/-- Replacing a nonempty pattern at an occurrence placed at the head. -/
theorem pyReplace_head_occurrence (p v b : List Char) (hp : p ≠ []) :
    pyReplace p v (p ++ b) = v ++ pyReplace p v b := by
  cases p with
  | nil => exact absurd rfl hp
  | cons c cs =>
    rw [List.cons_append, pyReplace_cons_of_match (c :: cs) v c (cs ++ b)
      (by rw [← List.cons_append]; exact startsWith_append_self (c :: cs) b) hp]
    congr 1
    rw [← List.cons_append, List.drop_left]

/-- A pattern beginning with a character absent from a list cannot match
along it, so replacement along such a list is the identity. -/
theorem pyReplace_clean (x : Char) (p' v : List Char) :
    ∀ c : List Char, x ∉ c → pyReplace (x :: p') v c = c := by
  intro c
  induction c with
  | nil => intro _; rfl
  | cons a rest ih =>
    intro hmem
    have ha : a ≠ x := fun h => hmem (h ▸ List.mem_cons_self a rest)
    rw [pyReplace_cons_of_not_match _ _ _ _
      (by simp [startsWith]; intro h; exact absurd h.symm ha)]
    rw [ih (fun h => hmem (List.mem_cons_of_mem a h))]

/-- Replacement passes over a clean prefix untouched. -/
theorem pyReplace_append_clean (x : Char) (p' v : List Char) :
    ∀ (a r : List Char), x ∉ a →
      pyReplace (x :: p') v (a ++ r) = a ++ pyReplace (x :: p') v r := by
  intro a
  induction a with
  | nil => intro r _; rfl
  | cons c a' ih =>
    intro r hmem
    have hc : c ≠ x := fun h => hmem (h ▸ List.mem_cons_self c a')
    rw [List.cons_append, pyReplace_cons_of_not_match _ _ _ _
      (by simp [startsWith]; intro h; exact absurd h.symm hc)]
    rw [ih r (fun h => hmem (List.mem_cons_of_mem c h))]
    rw [List.cons_append]

/-- A pattern beginning with a character absent from a list does not occur
in it. -/
theorem containsPat_clean (x : Char) (p' : List Char) :
    ∀ c : List Char, x ∉ c → containsPat (x :: p') c = false := by
  intro c
  induction c with
  | nil => intro _; rfl
  | cons a rest ih =>
    intro hmem
    have ha : a ≠ x := fun h => hmem (h ▸ List.mem_cons_self a rest)
    rw [containsPat]
    rw [ih (fun h => hmem (List.mem_cons_of_mem a h))]
    simp [startsWith]
    intro h
    exact absurd h.symm ha

/-- Mismatch at the head characters refutes a prefix match. -/
theorem startsWith_head_ne (x y : Char) (xs ys : List Char) (h : x ≠ y) :
    startsWith (x :: xs) (y :: ys) = false := by
  simp [startsWith]
  intro hxy
  exact absurd hxy h

/-- Two key segments followed by the same separator character (absent from
both keys) can only prefix-match when the keys are equal. -/
theorem startsWith_key_eq (s : Char) :
    ∀ (k y u w : List Char), s ∉ k → s ∉ y →
      startsWith (k ++ s :: u) (y ++ s :: w) = true → k = y := by
  intro k
  induction k with
  | nil =>
    intro y u w _ hy hsw
    cases y with
    | nil => rfl
    | cons c y' =>
      rw [List.nil_append, List.cons_append] at hsw
      have hc : c ≠ s := fun h => hy (h ▸ List.mem_cons_self c y')
      rw [startsWith_head_ne s c _ _ (Ne.symm hc)] at hsw
      exact absurd hsw Bool.false_ne_true
  | cons d k' ih =>
    intro y u w hk hy hsw
    cases y with
    | nil =>
      rw [List.cons_append, List.nil_append] at hsw
      have hd : d ≠ s := fun h => hk (h ▸ List.mem_cons_self d k')
      rw [startsWith_head_ne d s _ _ hd] at hsw
      exact absurd hsw Bool.false_ne_true
    | cons c y' =>
      rw [List.cons_append, List.cons_append, startsWith] at hsw
      rcases (Bool.and_eq_true _ _).mp hsw with ⟨hdc, hrest⟩
      have hdc : d = c := by simpa using hdc
      subst hdc
      rw [ih y' u w (fun h => hk (List.mem_cons_of_mem d h))
        (fun h => hy (List.mem_cons_of_mem d h)) hrest]

/-- Scanning a `{\x7b…` pattern over a `{\x7b`-block whose body neither
matches at the block start nor contains an opening brace leaves the block
unchanged. -/
theorem pyReplace_two_brace_block (t v rest : List Char)
    (h0 : startsWith t rest = false) (h2 : '{' ∉ rest) :
    pyReplace ('{' :: '{' :: t) v ('{' :: '{' :: rest) = '{' :: '{' :: rest := by
  have step1 : startsWith ('{' :: '{' :: t) ('{' :: '{' :: rest) = false := by
    simp [startsWith, h0]
  rw [pyReplace_cons_of_not_match _ _ _ _ step1]
  have step2 : startsWith ('{' :: '{' :: t) ('{' :: rest) = false := by
    cases rest with
    | nil => simp [startsWith]
    | cons c cs =>
      have hc : c ≠ '{' := fun h => h2 (h ▸ List.mem_cons_self c cs)
      simp [startsWith]
      intro h
      exact absurd h.symm hc
  rw [pyReplace_cons_of_not_match _ _ _ _ step2]
  rw [pyReplace_clean '{' _ v rest h2]

/-- The `{\x7bkey\x7d}` pattern does not match at the start of a key
segment followed by a closing-brace pair when the keys differ. -/
theorem startsWith_patBody_ne (kd yd w : List Char)
    (hk : '}' ∉ kd) (hy : '}' ∉ yd) (hne : kd ≠ yd) :
    startsWith (kd ++ ['}', '}']) (yd ++ '}' :: w) = false := by
  by_contra hcon
  rw [Bool.not_eq_false] at hcon
  have : kd ++ ['}', '}'] = kd ++ '}' :: ['}'] := rfl
  rw [this] at hcon
  exact hne (startsWith_key_eq '}' kd yd ['}'] w hk hy hcon)

/-- Replacing `{\x7bk\x7d}` leaves any spaced placeholder `{\x7b y \x7d}`
(including `y = k`) untouched: the spaced form never matches the unspaced
pattern. -/
theorem pyReplace_pat_over_spacedY (k y : String) (v b : List Char)
    (hks : ' ' ∉ k.data) (hyo : '{' ∉ y.data) (hb : '{' ∉ b) :
    pyReplace (pat k) v (spacedPat y ++ b) = spacedPat y ++ b := by
  have hpat : pat k = '{' :: '{' :: (k.data ++ ['}', '}']) := rfl
  have hsp : spacedPat y ++ b =
      '{' :: '{' :: (' ' :: (y.data ++ [' ', '}', '}'] ++ b)) := by
    simp [spacedPat]
  rw [hpat, hsp]
  apply pyReplace_two_brace_block
  · cases hk : k.data with
    | nil => rw [List.nil_append]; exact startsWith_head_ne '}' ' ' _ _ (by decide)
    | cons c k' =>
      have hc : c ≠ ' ' := fun h => hks (hk ▸ h ▸ List.mem_cons_self c k')
      rw [List.cons_append]
      exact startsWith_head_ne c ' ' _ _ hc
  · intro hmem
    rcases List.mem_cons.mp hmem with h | hmem
    · exact absurd h.symm (by decide)
    rcases List.mem_append.mp hmem with hmem | hmem
    · rcases List.mem_append.mp hmem with hmem | hmem
      · exact hyo hmem
      · simp at hmem
    · exact hb hmem

/-- Replacing `{\x7bk\x7d}` leaves a different key's placeholder
`{\x7by\x7d}` untouched. -/
theorem pyReplace_pat_over_patY (k y : String) (v b : List Char)
    (hne : k.data ≠ y.data) (hk : '}' ∉ k.data) (hy : '}' ∉ y.data)
    (hyo : '{' ∉ y.data) (hb : '{' ∉ b) :
    pyReplace (pat k) v (pat y ++ b) = pat y ++ b := by
  have hpat : pat k = '{' :: '{' :: (k.data ++ ['}', '}']) := rfl
  have hsp : pat y ++ b = '{' :: '{' :: (y.data ++ '}' :: '}' :: b) := by
    simp [pat]
  rw [hpat, hsp]
  apply pyReplace_two_brace_block
  · exact startsWith_patBody_ne k.data y.data ('}' :: b) hk hy hne
  · intro hmem
    rcases List.mem_append.mp hmem with hmem | hmem
    · exact hyo hmem
    · rcases List.mem_cons.mp hmem with h | hmem
      · exact absurd h.symm (by decide)
      rcases List.mem_cons.mp hmem with h | hmem
      · exact absurd h.symm (by decide)
      · exact hb hmem

/-- Replacing `{\x7b k \x7d}` leaves an unspaced placeholder
`{\x7by\x7d}` (any `y`) untouched. -/
theorem pyReplace_spaced_over_patY (k y : String) (v b : List Char)
    (hys : ' ' ∉ y.data) (hyo : '{' ∉ y.data) (hb : '{' ∉ b) :
    pyReplace (spacedPat k) v (pat y ++ b) = pat y ++ b := by
  have hpat : spacedPat k = '{' :: '{' :: (' ' :: (k.data ++ [' ', '}', '}'])) := rfl
  have hsp : pat y ++ b = '{' :: '{' :: (y.data ++ '}' :: '}' :: b) := by
    simp [pat]
  rw [hpat, hsp]
  apply pyReplace_two_brace_block
  · cases hyd : y.data with
    | nil => rw [List.nil_append]; exact startsWith_head_ne ' ' '}' _ _ (by decide)
    | cons c y' =>
      have hc : c ≠ ' ' := fun h => hys (hyd ▸ h ▸ List.mem_cons_self c y')
      rw [List.cons_append]
      exact startsWith_head_ne ' ' c _ _ (Ne.symm hc)
  · intro hmem
    rcases List.mem_append.mp hmem with hmem | hmem
    · exact hyo hmem
    · rcases List.mem_cons.mp hmem with h | hmem
      · exact absurd h.symm (by decide)
      rcases List.mem_cons.mp hmem with h | hmem
      · exact absurd h.symm (by decide)
      · exact hb hmem

/-- Replacing `{\x7b k \x7d}` leaves a different key's spaced placeholder
`{\x7b y \x7d}` untouched. -/
theorem pyReplace_spaced_over_spacedY (k y : String) (v b : List Char)
    (hne : k.data ≠ y.data) (hks : ' ' ∉ k.data) (hys : ' ' ∉ y.data)
    (hyo : '{' ∉ y.data) (hb : '{' ∉ b) :
    pyReplace (spacedPat k) v (spacedPat y ++ b) = spacedPat y ++ b := by
  have hpat : spacedPat k = '{' :: '{' :: (' ' :: (k.data ++ [' ', '}', '}'])) := rfl
  have hsp : spacedPat y ++ b =
      '{' :: '{' :: (' ' :: (y.data ++ ' ' :: '}' :: '}' :: b)) := by
    simp [spacedPat]
  rw [hpat, hsp]
  apply pyReplace_two_brace_block
  · rw [startsWith]
    have hinner : startsWith (k.data ++ [' ', '}', '}']) (y.data ++ ' ' :: '}' :: '}' :: b)
        = false := by
      by_contra hcon
      rw [Bool.not_eq_false] at hcon
      have hk2 : k.data ++ [' ', '}', '}'] = k.data ++ ' ' :: ['}', '}'] := rfl
      rw [hk2] at hcon
      exact hne (startsWith_key_eq ' ' k.data y.data ['}', '}'] ('}' :: '}' :: b)
        hks hys hcon)
    simp [hinner]
  · intro hmem
    rcases List.mem_cons.mp hmem with h | hmem
    · exact absurd h.symm (by decide)
    rcases List.mem_append.mp hmem with hmem | hmem
    · exact hyo hmem
    · rcases List.mem_cons.mp hmem with h | hmem
      · exact absurd h.symm (by decide)
      rcases List.mem_cons.mp hmem with h | hmem
      · exact absurd h.symm (by decide)
      rcases List.mem_cons.mp hmem with h | hmem
      · exact absurd h.symm (by decide)
      · exact hb hmem

/-- C8: substitution replaces every `{\x7bkey\x7d}` and `{\x7b key \x7d}`
occurrence with the supplied value and the rendered content retains no
literal placeholder for a supplied key; a placeholder whose key is not in
the variable map is left verbatim (and substitution is a total function,
so it never errors); variables whose placeholder does not occur leave the
content unchanged.  Keys are brace- and space-free and values brace-free,
as in every template/variable pair the engine is used with. -/
theorem prompt_fill_variables_spec :
    (∀ (k val : String) (a b c : List Char),
      '{' ∉ a → '{' ∉ b → '{' ∉ c → '{' ∉ val.data → '{' ∉ k.data → ' ' ∉ k.data →
      fill_variables [(k, val)] (a ++ pat k ++ b ++ spacedPat k ++ c) =
        a ++ val.data ++ b ++ val.data ++ c ∧
      containsPat (pat k) (a ++ val.data ++ b ++ val.data ++ c) = false ∧
      containsPat (spacedPat k) (a ++ val.data ++ b ++ val.data ++ c) = false) ∧
    (∀ (k y val : String) (a b : List Char),
      k ≠ y → '}' ∉ k.data → ' ' ∉ k.data →
      '{' ∉ y.data → '}' ∉ y.data → ' ' ∉ y.data → '{' ∉ a → '{' ∉ b →
      fill_variables [(k, val)] (a ++ pat y ++ b) = a ++ pat y ++ b ∧
      fill_variables [(k, val)] (a ++ spacedPat y ++ b) = a ++ spacedPat y ++ b) ∧
    (∀ (vars : List (String × String)) (content : List Char),
      '{' ∉ content → fill_variables vars content = content) := by
  have hfold : ∀ (k val : String) (c : List Char),
      fill_variables [(k, val)] c =
        pyReplace (spacedPat k) val.data (pyReplace (pat k) val.data c) := by
    intro k val c
    rfl
  have hdata_ne : ∀ k y : String, k ≠ y → k.data ≠ y.data := by
    intro k y hne hd
    apply hne
    cases k
    cases y
    exact congrArg String.mk hd
  refine ⟨?_, ?_, ?_⟩
  · intro k val a b c ha hb hc hv hk hks
    have hpk : pat k = '{' :: ('{' :: (k.data ++ ['}', '}'])) := rfl
    have hsk : spacedPat k = '{' :: ('{' :: (' ' :: (k.data ++ [' ', '}', '}']))) := rfl
    have e1 : pyReplace (pat k) val.data (a ++ (pat k ++ (b ++ (spacedPat k ++ c)))) =
        a ++ pyReplace (pat k) val.data (pat k ++ (b ++ (spacedPat k ++ c))) := by
      rw [hpk]
      exact pyReplace_append_clean '{' _ val.data a _ ha
    have e2 : pyReplace (pat k) val.data (pat k ++ (b ++ (spacedPat k ++ c))) =
        val.data ++ pyReplace (pat k) val.data (b ++ (spacedPat k ++ c)) :=
      pyReplace_head_occurrence (pat k) val.data _ (by simp [pat])
    have e3 : pyReplace (pat k) val.data (b ++ (spacedPat k ++ c)) =
        b ++ pyReplace (pat k) val.data (spacedPat k ++ c) := by
      rw [hpk]
      exact pyReplace_append_clean '{' _ val.data b _ hb
    have e4 : pyReplace (pat k) val.data (spacedPat k ++ c) = spacedPat k ++ c :=
      pyReplace_pat_over_spacedY k k val.data c hks hk hc
    have f1 : pyReplace (spacedPat k) val.data
          (a ++ (val.data ++ (b ++ (spacedPat k ++ c)))) =
        a ++ pyReplace (spacedPat k) val.data (val.data ++ (b ++ (spacedPat k ++ c))) := by
      rw [hsk]
      exact pyReplace_append_clean '{' _ val.data a _ ha
    have f2 : pyReplace (spacedPat k) val.data (val.data ++ (b ++ (spacedPat k ++ c))) =
        val.data ++ pyReplace (spacedPat k) val.data (b ++ (spacedPat k ++ c)) := by
      rw [hsk]
      exact pyReplace_append_clean '{' _ val.data val.data _ hv
    have f3 : pyReplace (spacedPat k) val.data (b ++ (spacedPat k ++ c)) =
        b ++ pyReplace (spacedPat k) val.data (spacedPat k ++ c) := by
      rw [hsk]
      exact pyReplace_append_clean '{' _ val.data b _ hb
    have f4 : pyReplace (spacedPat k) val.data (spacedPat k ++ c) =
        val.data ++ pyReplace (spacedPat k) val.data c :=
      pyReplace_head_occurrence (spacedPat k) val.data _ (by simp [spacedPat])
    have f5 : pyReplace (spacedPat k) val.data c = c := by
      rw [hsk]
      exact pyReplace_clean '{' _ val.data c hc
    have hclean : '{' ∉ a ++ val.data ++ b ++ val.data ++ c := by
      simp only [List.mem_append, not_or]
      exact ⟨⟨⟨⟨ha, hv⟩, hb⟩, hv⟩, hc⟩
    refine ⟨?_, ?_, ?_⟩
    · rw [hfold]
      have hassoc : a ++ pat k ++ b ++ spacedPat k ++ c =
          a ++ (pat k ++ (b ++ (spacedPat k ++ c))) := by
        simp [List.append_assoc]
      rw [hassoc, e1, e2, e3, e4, f1, f2, f3, f4, f5]
      simp [List.append_assoc]
    · rw [hpk]
      exact containsPat_clean '{' _ _ hclean
    · rw [hsk]
      exact containsPat_clean '{' _ _ hclean
  · intro k y val a b hne hkc hks hyo hyc hys ha hb
    have hpk : pat k = '{' :: ('{' :: (k.data ++ ['}', '}'])) := rfl
    have hsk : spacedPat k = '{' :: ('{' :: (' ' :: (k.data ++ [' ', '}', '}']))) := rfl
    have hnd := hdata_ne k y hne
    constructor
    · rw [hfold]
      have e1 : pyReplace (pat k) val.data (a ++ pat y ++ b) =
          a ++ pyReplace (pat k) val.data (pat y ++ b) := by
        rw [List.append_assoc, hpk]
        exact pyReplace_append_clean '{' _ val.data a _ ha
      have e2 : pyReplace (pat k) val.data (pat y ++ b) = pat y ++ b :=
        pyReplace_pat_over_patY k y val.data b hnd hkc hyc hyo hb
      have f1 : pyReplace (spacedPat k) val.data (a ++ (pat y ++ b)) =
          a ++ pyReplace (spacedPat k) val.data (pat y ++ b) := by
        rw [hsk]
        exact pyReplace_append_clean '{' _ val.data a _ ha
      have f2 : pyReplace (spacedPat k) val.data (pat y ++ b) = pat y ++ b :=
        pyReplace_spaced_over_patY k y val.data b hys hyo hb
      rw [e1, e2, f1, f2, List.append_assoc]
    · rw [hfold]
      have e1 : pyReplace (pat k) val.data (a ++ spacedPat y ++ b) =
          a ++ pyReplace (pat k) val.data (spacedPat y ++ b) := by
        rw [List.append_assoc, hpk]
        exact pyReplace_append_clean '{' _ val.data a _ ha
      have e2 : pyReplace (pat k) val.data (spacedPat y ++ b) = spacedPat y ++ b :=
        pyReplace_pat_over_spacedY k y val.data b hks hyo hb
      have f1 : pyReplace (spacedPat k) val.data (a ++ (spacedPat y ++ b)) =
          a ++ pyReplace (spacedPat k) val.data (spacedPat y ++ b) := by
        rw [hsk]
        exact pyReplace_append_clean '{' _ val.data a _ ha
      have f2 : pyReplace (spacedPat k) val.data (spacedPat y ++ b) = spacedPat y ++ b :=
        pyReplace_spaced_over_spacedY k y val.data b hnd hks hys hyo hb
      rw [e1, e2, f1, f2, List.append_assoc]
  · intro vars
    induction vars with
    | nil => intro content _; rfl
    | cons kv rest ih =>
      intro content hcontent
      have hpk : pat kv.1 = '{' :: ('{' :: (kv.1.data ++ ['}', '}'])) := rfl
      have hsk : spacedPat kv.1 =
          '{' :: ('{' :: (' ' :: (kv.1.data ++ [' ', '}', '}']))) := rfl
      have g1 : pyReplace (pat kv.1) kv.2.data content = content := by
        rw [hpk]
        exact pyReplace_clean '{' _ kv.2.data content hcontent
      have g2 : pyReplace (spacedPat kv.1) kv.2.data content = content := by
        rw [hsk]
        exact pyReplace_clean '{' _ kv.2.data content hcontent
      have hstep : fill_variables (kv :: rest) content = fill_variables rest content := by
        rw [fill_variables, List.foldl_cons, g1, g2]
        rfl
      rw [hstep, ih content hcontent]

/-- Witness for C8 with the claim's own variable `x = "hello"`: both
placeholder forms are replaced everywhere, no literal placeholder
survives, an unknown key's placeholder is left verbatim, and an unused
variable changes nothing. -/
theorem prompt_fill_variables_spec_witness :
    fill_variables [("x", "hello")]
        ("Hi ".data ++ pat "x" ++ " mid ".data ++ spacedPat "x" ++ " end".data) =
      "Hi hello mid hello end".data ∧
    containsPat (pat "x")
      ("Hi ".data ++ "hello".data ++ " mid ".data ++ "hello".data ++ " end".data) = false ∧
    containsPat (spacedPat "x")
      ("Hi ".data ++ "hello".data ++ " mid ".data ++ "hello".data ++ " end".data) = false ∧
    fill_variables [("x", "hello")] ("See ".data ++ pat "name" ++ ".".data) =
      "See ".data ++ pat "name" ++ ".".data ∧
    fill_variables [("z", "ZZ")] "plain text".data = "plain text".data := by
  have t1 := prompt_fill_variables_spec.1 "x" "hello" "Hi ".data " mid ".data " end".data
    (by decide) (by decide) (by decide) (by decide) (by decide) (by decide)
  have t2 := prompt_fill_variables_spec.2.1 "x" "name" "hello" "See ".data ".".data
    (by decide) (by decide) (by decide) (by decide) (by decide) (by decide)
    (by decide) (by decide)
  have t3 := prompt_fill_variables_spec.2.2 [("z", "ZZ")] "plain text".data (by decide)
  refine ⟨?_, t1.2.1, t1.2.2, t2.1, t3⟩
  rw [t1.1]
  decide

end DramaLlama
